import Mathlib

/-!
Verification of the GitHub label-standardization checker (repository
`Dccccy/GIT-HUB`).  The repository ships two Python scripts:

* `verify_label_standard.py` — the simplified variant (namespace `Simple`);
* `label-verification-project/verify_label_standard.py` — the full variant
  (namespace `Full`).

Python strings are modelled as `List Char`; the handful of string methods the
scripts use (`strip`, `split`, `startswith`, `in`, `lower`, `join`) are given
structurally recursive counterparts so that every definition evaluates by
`decide`.  HTTP traffic is modelled by an `HttpOutcome` per endpoint: either a
response with a status code and an already-parsed body, or a raised
`requests` exception.  Timestamps (`datetime.now()` in the full variant) are
an uninterpreted string supplied by the world.
-/

/-- Python strings, modelled as lists of characters. -/
abbrev Str := List Char

/-- Converts a Lean string literal to the `Str` model. -/
def str (s : String) : Str := s.data

/-- The characters removed by Python's `str.strip()` with no argument. -/
def pySpace (c : Char) : Bool :=
  c == ' ' || c == '\t' || c == '\n' || c == '\r' || c == '\x0B' || c == '\x0C'

/-- Python `str.strip(chars)`: removes characters satisfying `p` from both ends. -/
def pyStrip (p : Char → Bool) (s : Str) : Str :=
  ((s.dropWhile p).reverse.dropWhile p).reverse

/-- Python `str.strip()` (whitespace from both ends). -/
def pyTrim (s : Str) : Str := pyStrip pySpace s

/-- Auxiliary loop for `splitOnChar`; `cur` holds the current piece reversed. -/
def splitOnCharAux (c : Char) : Str → Str → List Str
  | [], cur => [cur.reverse]
  | x :: xs, cur =>
    if x == c then cur.reverse :: splitOnCharAux c xs []
    else splitOnCharAux c xs (x :: cur)

/-- Python `str.split(sep)` for a one-character separator: both scripts only
ever split on `'|'` and `'\n'`. -/
def splitOnChar (c : Char) (s : Str) : List Str := splitOnCharAux c s []

/-- Python's substring test `sub in s`. -/
def substrIn (sub : Str) : Str → Bool
  | [] => List.isPrefixOf sub []
  | s@(_ :: rest) => List.isPrefixOf sub s || substrIn sub rest

/-- Python `str.lower()` (ASCII letters; other characters are unchanged,
matching every string the scripts lowercase). -/
def lowerStr (s : Str) : Str := s.map Char.toLower

/-- Python truthiness of `os.environ.get(...)`: `None` and the empty string
are falsy. -/
def pyTruthy : Option Str → Bool
  | none => false
  | some s => s != []

/-- A nullable JSON string field of a response dict: the key may be absent,
present with a JSON `null` value (Python `None`), or present with a string.
The distinction matters: `d.get(key, "")` substitutes the default only for
an absent key, so a stored `null` comes back as `None` and a later
`sub in body` raises an uncaught TypeError in the full variant. -/
inductive JsonStr where
  | absent
  | null
  | val (s : Str)
deriving Repr, DecidableEq

/-- Python `d.get(key, "")`: `none` models the result `None` (stored JSON
null); the default applies only to an absent key. -/
def JsonStr.getOrEmpty : JsonStr → Option Str
  | .absent => some []
  | .null => none
  | .val s => some s

/-- Python truthiness of `d.get(key)`: absent and null give falsy `None`,
and the empty string is falsy too. -/
def JsonStr.truthy : JsonStr → Bool
  | .val s => s != []
  | _ => false

/-- Decimal rendering of a number interpolated into an f-string. -/
def natStr (n : Nat) : Str := str (toString n)

/-- Python `sep.join(xs)`. -/
def pyJoin (sep : Str) : List Str → Str
  | [] => []
  | [x] => x
  | x :: xs => x ++ sep ++ pyJoin sep xs

/-- Outcome of one `requests.get` call: an HTTP response carrying a status
code and an already-parsed JSON body of type `α`, or a raised
`requests.exceptions.RequestException`. -/
inductive HttpOutcome (α : Type) where
  | resp (status : Nat) (body : α)
  | exc

/-- One entry of `self.verification_results` in the simplified variant:
the dict `{"task": ..., "message": ..., "status": ...}`. -/
structure VResult where
  task : Str
  message : Str
  status : Str
deriving Repr, DecidableEq

/-- The mutable verifier state shared by all checks of the simplified
variant: the append-only result log and the `has_critical_error` flag. -/
structure VState where
  results : List VResult
  hasCritical : Bool
deriving Repr, DecidableEq

/-- One entry of `self.verification_results` in the full variant; it
additionally stores `datetime.now().isoformat()`. -/
structure FullVResult where
  task : Str
  message : Str
  status : Str
  timestamp : Str
deriving Repr, DecidableEq

/-- The mutable verifier state of the full variant. -/
structure FullVState where
  results : List FullVResult
  hasCritical : Bool
deriving Repr, DecidableEq

/-- Result of one full-variant step or of the whole full run: a normal
return carrying the verifier state and a value, or an uncaught Python
exception still carrying the state recorded so far (the script installs no
handler, so the exception reaches the interpreter, which prints a traceback
and exits with code 1). -/
inductive PyOutcome (β : Type) where
  | ret (st : FullVState) (v : β)
  | raised (st : FullVState)
deriving Repr

/-- The verifier state carried by an outcome. -/
def PyOutcome.state {β : Type} : PyOutcome β → FullVState
  | .ret st _ => st
  | .raised st => st

/-- Whether the outcome is an uncaught exception. -/
def PyOutcome.crashed {β : Type} : PyOutcome β → Bool
  | .ret _ _ => false
  | .raised _ => true

/-- A label row produced by the simplified parser: `{"name": ..., "color": ...}`. -/
structure Label where
  name : Str
  color : Str
deriving Repr, DecidableEq

/-- A GitHub issue as read by both scripts: an optional `title` (absent
collapses to `none`; both scripts only `get` it with a default), a nullable
`body` (absent, JSON null and string are distinguished, since the full
variant crashes on a stored null), presence of the `pull_request` key, the
issue `number`, and its label names. -/
structure Issue where
  title : Option Str
  body : JsonStr
  pull_request : Bool
  number : Nat
  labels : List Str
deriving Repr, DecidableEq

namespace Simple

/-! Configuration loaded by `load_configuration` of the simplified variant. -/

def branch_name : Str := str "main"

def doc_file : Str := str "docs/label-color-standardization.md"

def min_label_count : Nat := 12

def title_keywords : List Str := [str "标签", str "label", str "标准化"]

def body_keywords : List Str := [str "标签体系", str "颜色规范"]

/-- `github_api_request` of the simplified variant:
`return response.status_code == 200, response.json() if response.status_code == 200 else None`,
with any `RequestException` caught and turned into `(False, None)`. -/
def github_api_request {α : Type} (o : HttpOutcome α) : Bool × Option α :=
  match o with
  | .resp code body => (code == 200, if code == 200 then some body else none)
  | .exc => (false, none)

/-- `record_result`: appends the entry to `verification_results` and sets
`has_critical_error` when the status is `"critical"`. -/
def record_result (st : VState) (task message status : Str) : VState :=
  ⟨st.results ++ [⟨task, message, status⟩],
   if status == str "critical" then true else st.hasCritical⟩

/-- Body of the `for line in lines` loop of the simplified
`parse_label_table`, acting on the accumulated label list. -/
def parseStep (labels : List Label) (rawLine : Str) : List Label :=
  let line := pyTrim rawLine
  if List.isPrefixOf (str "|") line && line.contains '#' && !(substrIn (str "---") line) then
    match (splitOnChar '|' (pyStrip (· == '|') line)).map pyTrim with
    | c0 :: c1 :: _ =>
      if c0 != [] && List.isPrefixOf (str "#") c1 then labels ++ [⟨c0, c1⟩]
      else labels
    | _ => labels
  else labels

/-- `parse_label_table` of the simplified variant. -/
def parse_label_table (content : Str) : List Label :=
  (splitOnChar '\n' content).foldl parseStep []

/-- The per-line rule stated by the specification: a trimmed line qualifies
when it starts with `|`, contains `#`, contains no `---`, and after stripping
outer pipes, splitting on `|` and trimming, has a non-empty first cell and a
second cell beginning with `#`; it then yields `{name: cell0, color: cell1}`. -/
def labelRowOfLine (rawLine : Str) : Option Label :=
  let line := pyTrim rawLine
  if List.isPrefixOf (str "|") line && line.contains '#' && !(substrIn (str "---") line) then
    match (splitOnChar '|' (pyStrip (· == '|') line)).map pyTrim with
    | c0 :: c1 :: _ =>
      if c0 != [] && List.isPrefixOf (str "#") c1 then some ⟨c0, c1⟩
      else none
    | _ => none
  else none

/-- The keyword condition of the simplified `verify_standardization_issue`:
a title keyword occurs in the lowercased title, or a body keyword occurs in
the lowercased body (`""` when the body is missing or falsy). -/
def issueMatches (issue : Issue) : Bool :=
  let title := lowerStr (issue.title.getD [])
  let body := match issue.body with
    | .val b => if b != [] then lowerStr b else []
    | _ => []
  title_keywords.any (fun k => substrIn k title) ||
    body_keywords.any (fun k => substrIn k body)

/-- The `for issue in issues` search loop: skip pull requests, stop at the
first keyword match. -/
def findTargetIssue : List Issue → Option Issue
  | [] => none
  | issue :: rest =>
    if issue.pull_request then findTargetIssue rest
    else if issueMatches issue then some issue
    else findTargetIssue rest

/-- Body of the `contents/...` response: `response["content"]` decoded from
base64 as UTF-8; `none` models a `KeyError`/`ValueError` raised while
decoding (both caught by the script). -/
structure ContentsResp where
  decoded : Option Str
deriving Repr, DecidableEq

/-- The external inputs of one run of the simplified script: the two
environment variables and the outcome of each HTTP request it can make. -/
structure SimpleWorld where
  token : Option Str
  org : Option Str
  root : HttpOutcome Unit
  branch : HttpOutcome Unit
  contents : HttpOutcome ContentsResp
  issues : HttpOutcome (List Issue)

/-- `setup_environment` of the simplified variant.  Note that the failure
paths return `False` without recording any result. -/
def setup_environment (w : SimpleWorld) (st : VState) : VState × Bool :=
  if !pyTruthy w.token || !pyTruthy w.org then (st, false)
  else if !(github_api_request w.root).1 then (st, false)
  else (record_result st (str "环境验证") (str "环境配置正确，API连接成功") (str "success"), true)

/-- `verify_branch_existence` of the simplified variant. -/
def verify_branch_existence (w : SimpleWorld) (st : VState) : VState × Bool :=
  if (github_api_request w.branch).1 then
    (record_result st (str "分支验证") (str "功能分支 " ++ branch_name ++ str " 存在") (str "success"), true)
  else
    (record_result st (str "分支验证") (str "功能分支 " ++ branch_name ++ str " 不存在") (str "critical"), false)

/-- `verify_label_document` of the simplified variant. -/
def verify_label_document (w : SimpleWorld) (st : VState) : VState × Bool :=
  match github_api_request w.contents with
  | (true, some resp) =>
    match resp.decoded with
    | some content =>
      let labels := parse_label_table content
      let n := labels.length
      if n < min_label_count then
        (record_result st (str "文档验证")
          (str "标签数量不足: 需要至少 " ++ natStr min_label_count ++ str " 个, 实际 "
            ++ natStr n ++ str " 个") (str "warning"), true)
      else
        (record_result st (str "文档验证")
          (str "标签文档完整, 包含 " ++ natStr n ++ str " 个标签") (str "success"), true)
    | none => (record_result st (str "文档验证") (str "文档内容解码失败") (str "critical"), false)
  | _ => (record_result st (str "文档验证") (str "标签文档 " ++ doc_file ++ str " 不存在") (str "critical"), false)

/-- `verify_standardization_issue` of the simplified variant. -/
def verify_standardization_issue (w : SimpleWorld) (st : VState) : VState × Option Issue :=
  match github_api_request w.issues with
  | (true, some issues) =>
    match findTargetIssue issues with
    | none => (record_result st (str "Issue验证") (str "未找到标准化需求Issue") (str "warning"), none)
    | some target =>
      (record_result st (str "Issue验证")
        (str "标准化Issue #" ++ natStr target.number ++ str " 验证完成: " ++ target.title.getD [])
        (str "success"), some target)
  | _ => (record_result st (str "Issue验证") (str "无法获取Issue列表") (str "critical"), none)

/-- `generate_report` of the simplified variant (printing dropped): returns
`False` exactly when `has_critical_error` is set. -/
def generate_report (st : VState) : Bool :=
  if st.hasCritical then false else true

/-- `run_verification` of the simplified variant: each of the first three
tasks halts the pipeline by returning `False`; the issue check's return
value is ignored. -/
def run_verification (w : SimpleWorld) : VState × Bool :=
  match setup_environment w ⟨[], false⟩ with
  | (st, false) => (st, false)
  | (st1, true) =>
    match verify_branch_existence w st1 with
    | (st, false) => (st, false)
    | (st2, true) =>
      match verify_label_document w st2 with
      | (st, false) => (st, false)
      | (st3, true) =>
        let st4 := (verify_standardization_issue w st3).1
        (st4, generate_report st4)

/-- `main`: `sys.exit(0 if success else 1)`. -/
def main_exit (w : SimpleWorld) : Nat :=
  if (run_verification w).2 then 0 else 1

end Simple

namespace Full

/-! Configuration loaded by `load_configuration` of the full variant. -/

def branch_name : Str := str "feat/label-standardization"

def doc_file : Str := str "docs/labels-standard.md"

def table_header : Str := str "| 标签名称 | 颜色值 | 描述 |"

def min_label_count : Nat := 15

def issue_title_keywords : List Str := [str "标签标准化", str "Label Standardization"]

def issue_body_keywords : List Str := [str "标签体系", str "颜色规范", str "标准化需求"]

def issue_required_labels : List Str := [str "enhancement", str "documentation"]

def issue_required_sections : List Str := [str "## 问题描述", str "## 预期标准", str "## 标签清单"]

def pr_title_keywords : List Str := [str "实施标签标准化", str "Label Standardization Implementation"]

def pr_required_sections : List Str := [str "## 修改摘要", str "## 标签变更", str "## 测试结果"]

def pr_min_labels_count : Nat := 3

def expected_labels : List Str :=
  [str "bug", str "enhancement", str "documentation", str "feature", str "question",
   str "help-wanted", str "good-first-issue", str "priority-high",
   str "priority-medium", str "priority-low", str "status-in-progress",
   str "status-review", str "status-done", str "status-blocked", str "wontfix"]

def core_labels : List Str :=
  [str "bug", str "enhancement", str "documentation", str "priority-high",
   str "priority-medium", str "priority-low"]

/-- `github_api_request` of the full variant: explicit `if/else` on the
status code; the exception handler prints to stderr and returns `(False, None)`. -/
def github_api_request {α : Type} (o : HttpOutcome α) : Bool × Option α :=
  match o with
  | .resp code body => if code == 200 then (true, some body) else (false, none)
  | .exc => (false, none)

/-- `record_result` of the full variant; `ts` is `datetime.now().isoformat()`. -/
def record_result (st : FullVState) (task message status ts : Str) : FullVState :=
  ⟨st.results ++ [⟨task, message, status, ts⟩],
   if status == str "critical" then true else st.hasCritical⟩

/-- A row dict built by `dict(zip(headers, values))`, modelled as the
association list of the zipped pairs (later duplicates win on lookup). -/
abbrev LabelDict := List (Str × Str)

/-- `[x.strip() for x in line.strip('|').split('|')]`, used both for the
header line and for data rows. -/
def pipeCells (line : Str) : List Str :=
  (splitOnChar '|' (pyStrip (· == '|') line)).map pyTrim

/-- `dict(zip(headers, values))`. -/
def pyDictZip (headers values : List Str) : LabelDict := headers.zip values

/-- Python `key in dict`. -/
def pyDictHasKey (d : LabelDict) (k : Str) : Bool := d.any (fun p => p.1 == k)

/-- Python `dict[key]` (the last binding of the key wins, as in `dict(...)`
construction from pairs). -/
def pyDictGet (d : LabelDict) (k : Str) : Option Str :=
  (d.reverse.find? (fun p => p.1 == k)).map (fun p => p.2)

/-- The `for line in lines` loop of the full `parse_label_table`, with the
`in_table` flag, the current `headers`, the accumulated labels, and an early
`break` on a blank line while inside the table. -/
def parseLoop (th : Str) : List Str → Bool → List Str → List LabelDict → List LabelDict
  | [], _, _, labels => labels
  | line :: rest, in_table, headers, labels =>
    if substrIn th line then
      parseLoop th rest true (pipeCells line) labels
    else
      let labels' :=
        if in_table && List.isPrefixOf (str "|") line && !(substrIn (str "---") line) then
          let values := pipeCells line
          if 3 ≤ values.length then labels ++ [pyDictZip headers values] else labels
        else labels
      if in_table && pyTrim line == [] then labels'
      else parseLoop th rest in_table headers labels'

/-- `parse_label_table` of the full variant. -/
def parse_label_table (content : Str) (th : Str) : List LabelDict :=
  parseLoop th (splitOnChar '\n' content) false [] []

/-- Restatement of the full parser as a phase-split scan, used to state the
amended characterization: before a header line nothing is collected; a line
containing the header (re)enters table mode with freshly parsed headers; in
table mode a blank line stops the scan, and a line starting with `|`,
without `---` and with at least three cells is collected as a row. -/
def specScan (th : Str) : Option (List Str) → List Str → List LabelDict
  | _, [] => []
  | none, line :: rest =>
    if substrIn th line then specScan th (some (pipeCells line)) rest
    else specScan th none rest
  | some headers, line :: rest =>
    if substrIn th line then specScan th (some (pipeCells line)) rest
    else if pyTrim line == [] then []
    else if List.isPrefixOf (str "|") line && !(substrIn (str "---") line)
            && 3 ≤ (pipeCells line).length then
      pyDictZip headers (pipeCells line) :: specScan th (some headers) rest
    else specScan th (some headers) rest

/-- The keyword condition of the full `verify_standardization_issue`: a
configured title keyword occurs in the (case-sensitive) title. -/
def issueMatches (issue : Issue) : Bool :=
  issue_title_keywords.any (fun k => substrIn k (issue.title.getD []))

/-- The issue search loop of the full variant. -/
def findTargetIssue : List Issue → Option Issue
  | [] => none
  | issue :: rest =>
    if issue.pull_request then findTargetIssue rest
    else if issueMatches issue then some issue
    else findTargetIssue rest

/-- A pull request as read by the full script; the `body` is nullable for
the same reason as an issue body. -/
structure Pull where
  title : Option Str
  body : JsonStr
  number : Nat
  labels : List Str
deriving Repr, DecidableEq

/-- An issue comment as read by the full script; its `body` is nullable. -/
structure Comment where
  body : JsonStr
deriving Repr, DecidableEq

/-- A repository label as returned by the `labels` endpoint. -/
structure RepoLabel where
  name : Str
deriving Repr, DecidableEq

/-- Body of a `contents/...` response in the full variant.  The script
decodes `response["content"]` without a `try` block, so a decode failure
would raise an uncaught exception; the model supplies the decoded text.  -/
structure ContentsResp where
  decoded : Str
deriving Repr, DecidableEq

/-- The external inputs of one run of the full script: environment
variables, the clock, and the outcome of each HTTP request in program
order (`contents2` is the re-fetch done by the consistency check). -/
structure FullWorld where
  token : Option Str
  org : Option Str
  now : Str
  root : HttpOutcome Unit
  branch : HttpOutcome Unit
  contents : HttpOutcome ContentsResp
  issues : HttpOutcome (List Issue)
  pulls : HttpOutcome (List Pull)
  comments : HttpOutcome (List Comment)
  contents2 : HttpOutcome ContentsResp
  repoLabels : HttpOutcome (List RepoLabel)

/-- `setup_environment` of the full variant: unlike the simplified one, each
failure path records a critical result before returning `False`. -/
def setup_environment (w : FullWorld) (st : FullVState) : FullVState × Bool :=
  if !pyTruthy w.token then
    (record_result st (str "环境错误") (str "未配置 GITHUB_TOKEN") (str "critical") w.now, false)
  else if !pyTruthy w.org then
    (record_result st (str "环境错误") (str "未配置 GITHUB_ORG") (str "critical") w.now, false)
  else if !(github_api_request w.root).1 then
    (record_result st (str "API连接失败") (str "无法访问GitHub API") (str "critical") w.now, false)
  else
    (record_result st (str "环境验证") (str "环境配置正确，API连接成功") (str "success") w.now, true)

/-- `verify_branch_existence` of the full variant. -/
def verify_branch_existence (w : FullWorld) (st : FullVState) : FullVState × Bool :=
  if (github_api_request w.branch).1 then
    (record_result st (str "分支验证") (str "功能分支 " ++ branch_name ++ str " 存在") (str "success") w.now, true)
  else
    (record_result st (str "分支验证") (str "功能分支 " ++ branch_name ++ str " 不存在") (str "critical") w.now, false)

/-- `verify_label_document` of the full variant: every failure mode is
critical and halts. -/
def verify_label_document (w : FullWorld) (st : FullVState) : FullVState × Bool :=
  match github_api_request w.contents with
  | (true, some resp) =>
    let content := resp.decoded
    if !(substrIn table_header content) then
      (record_result st (str "文档验证") (str "标签文档缺少标准表格格式") (str "critical") w.now, false)
    else
      let labels := parse_label_table content table_header
      let n := labels.length
      if n < min_label_count then
        (record_result st (str "文档验证")
          (str "标签数量不足: 需要至少 " ++ natStr min_label_count ++ str " 个, 实际 "
            ++ natStr n ++ str " 个") (str "critical") w.now, false)
      else
        (record_result st (str "文档验证")
          (str "标签文档完整, 包含 " ++ natStr n ++ str " 个标签") (str "success") w.now, true)
  | _ => (record_result st (str "文档验证") (str "标签文档 " ++ doc_file ++ str " 不存在") (str "critical") w.now, false)

/-- `verify_standardization_issue` of the full variant.  The body is read
with `target_issue.get("body", "")`: a stored JSON null yields `None` and
the first `keyword not in issue_body` check raises an uncaught TypeError,
before anything is recorded in this function. -/
def verify_standardization_issue (w : FullWorld) (st : FullVState) : PyOutcome (Option Issue) :=
  match github_api_request w.issues with
  | (true, some issues) =>
    match findTargetIssue issues with
    | none => .ret (record_result st (str "Issue验证") (str "未找到标准化需求Issue") (str "critical") w.now) none
    | some target =>
      match target.body.getOrEmpty with
      | none => .raised st
      | some issue_body =>
      let issue_labels := target.labels
      let missing_keywords := issue_body_keywords.filter (fun k => !(substrIn k issue_body))
      let st1 := if missing_keywords != [] then
          record_result st (str "Issue验证")
            (str "Issue缺少关键词: " ++ pyJoin (str ", ") missing_keywords) (str "warning") w.now
        else st
      let missing_sections := issue_required_sections.filter (fun s => !(substrIn s issue_body))
      let st2 := if missing_sections != [] then
          record_result st1 (str "Issue验证")
            (str "Issue缺少章节: " ++ pyJoin (str ", ") missing_sections) (str "warning") w.now
        else st1
      let missing_labels := issue_required_labels.filter (fun l => !(issue_labels.contains l))
      let st3 := if missing_labels != [] then
          record_result st2 (str "Issue验证")
            (str "Issue缺少标签: " ++ pyJoin (str ", ") missing_labels) (str "warning") w.now
        else st2
      .ret (record_result st3 (str "Issue验证")
        (str "标准化Issue #" ++ natStr target.number ++ str " 验证完成") (str "success") w.now) (some target)
  | _ => .ret (record_result st (str "Issue验证") (str "无法获取Issue列表") (str "critical") w.now) none

/-- The PR search loop of `verify_standardization_pr` (no pull-request
filtering here; every listed PR is eligible). -/
def findTargetPr : List Pull → Option Pull
  | [] => none
  | pr :: rest =>
    if pr_title_keywords.any (fun k => substrIn k (pr.title.getD [])) then some pr
    else findTargetPr rest

/-- `verify_standardization_pr` of the full variant.  As with the issue
body, `target_pr.get("body", "")` on a stored JSON null gives `None` and
the issue-reference containment check raises an uncaught TypeError. -/
def verify_standardization_pr (w : FullWorld) (st : FullVState) (issue : Issue) :
    PyOutcome (Option Pull) :=
  match github_api_request w.pulls with
  | (true, some prs) =>
    match findTargetPr prs with
    | none => .ret (record_result st (str "PR验证") (str "未找到标准化实施PR") (str "critical") w.now) none
    | some pr =>
      match pr.body.getOrEmpty with
      | none => .raised st
      | some pr_body =>
      let pr_labels := pr.labels
      let st1 := if !(substrIn (str "#" ++ natStr issue.number) pr_body) then
          record_result st (str "PR验证") (str "PR未关联标准化Issue") (str "warning") w.now
        else st
      let missing_sections := pr_required_sections.filter (fun s => !(substrIn s pr_body))
      let st2 := if missing_sections != [] then
          record_result st1 (str "PR验证")
            (str "PR缺少章节: " ++ pyJoin (str ", ") missing_sections) (str "warning") w.now
        else st1
      let st3 := if pr_labels.length < pr_min_labels_count then
          record_result st2 (str "PR验证")
            (str "PR标签数量不足: 需要至少 " ++ natStr pr_min_labels_count ++ str " 个") (str "warning") w.now
        else st2
      .ret (record_result st3 (str "PR验证")
        (str "标准化PR #" ++ natStr pr.number ++ str " 验证完成") (str "success") w.now) (some pr)
  | _ => .ret (record_result st (str "PR验证") (str "无法获取PR列表") (str "critical") w.now) none

/-- `verify_issue_label_completeness` (task 6): warnings only. -/
def verify_issue_label_completeness (w : FullWorld) (st : FullVState) (issue : Issue) :
    FullVState × Bool :=
  let missing := expected_labels.filter (fun l => !(issue.labels.contains l))
  if missing != [] then
    (record_result st (str "标签完整性")
      (str "Issue缺少 " ++ natStr missing.dedup.length ++ str " 个预期标签") (str "warning") w.now, false)
  else
    (record_result st (str "标签完整性") (str "Issue包含所有预期标签") (str "success") w.now, true)

/-- `verify_issue_comments` (task 7): warnings only, even when the comment
request fails.  Each `comment.get("body", "")` on a stored JSON null yields
`None` and the PR-reference containment check raises an uncaught TypeError
at that loop iteration, before any result is recorded; so the step raises
exactly when some listed comment has a null body. -/
def verify_issue_comments (w : FullWorld) (st : FullVState) (pr : Pull) :
    PyOutcome Bool :=
  match github_api_request w.comments with
  | (true, some comments) =>
    if comments.any (fun c => c.body.getOrEmpty == none) then .raised st
    else
    let prRef := comments.any (fun c =>
      substrIn (str "#" ++ natStr pr.number) ((c.body.getOrEmpty).getD []) ||
        substrIn (str "pull/" ++ natStr pr.number) ((c.body.getOrEmpty).getD []))
    let done := comments.any (fun c =>
      [str "完成", str "完成验证", str "已验证", str "标准化完成"].any
        (fun k => substrIn k (lowerStr ((c.body.getOrEmpty).getD []))))
    let st1 := if !prRef then
        record_result st (str "评论验证") (str "Issue评论中未找到PR引用") (str "warning") w.now
      else st
    let st2 := if !done then
        record_result st1 (str "评论验证") (str "Issue评论中未找到完成验证关键词") (str "warning") w.now
      else st1
    if prRef && done then
      .ret (record_result st2 (str "评论验证") (str "Issue评论追溯验证通过") (str "success") w.now) true
    else .ret st2 false
  | _ => .ret (record_result st (str "评论验证") (str "无法获取Issue评论") (str "warning") w.now) false

/-- `{label["标签名称"] for label in documented_labels if "标签名称" in label}`,
as the list underlying the Python set. -/
def docLabelNames (content : Str) : List Str :=
  (parse_label_table content table_header).filterMap
    (fun d => if pyDictHasKey d (str "标签名称") then pyDictGet d (str "标签名称") else none)

/-- `verify_document_label_consistency` (task 8): the step re-fetches the
document, parses it, fetches the repository labels and compares the two
name sets; API failures record critical results. -/
def verify_document_label_consistency (w : FullWorld) (st : FullVState) :
    FullVState × Bool :=
  match github_api_request w.contents2 with
  | (true, some resp) =>
    let doc_label_names := docLabelNames resp.decoded
    match github_api_request w.repoLabels with
    | (true, some repo_labels) =>
      let repo_label_names := repo_labels.map (fun l => l.name)
      let missing_in_doc := repo_label_names.filter (fun n => !(doc_label_names.contains n))
      let extra_in_doc := doc_label_names.filter (fun n => !(repo_label_names.contains n))
      let st1 := if missing_in_doc != [] then
          record_result st (str "一致性验证")
            (str "文档缺少 " ++ natStr missing_in_doc.dedup.length ++ str " 个实际标签") (str "warning") w.now
        else st
      let st2 := if extra_in_doc != [] then
          record_result st1 (str "一致性验证")
            (str "文档包含 " ++ natStr extra_in_doc.dedup.length ++ str " 个多余标签") (str "warning") w.now
        else st1
      if missing_in_doc == [] && extra_in_doc == [] then
        (record_result st2 (str "一致性验证") (str "文档与实际标签完全一致") (str "success") w.now, true)
      else (st2, missing_in_doc == [])
    | _ => (record_result st (str "一致性验证") (str "无法获取仓库标签") (str "critical") w.now, false)
  | _ => (record_result st (str "一致性验证") (str "无法获取标签文档") (str "critical") w.now, false)

/-- `verify_pr_core_labels` (task 9): warnings only. -/
def verify_pr_core_labels (w : FullWorld) (st : FullVState) (pr : Pull) :
    FullVState × Bool :=
  let missing := core_labels.filter (fun l => !(pr.labels.contains l))
  if missing != [] then
    (record_result st (str "核心标签验证")
      (str "PR缺少 " ++ natStr missing.dedup.length ++ str " 个核心标签") (str "warning") w.now, false)
  else
    (record_result st (str "核心标签验证") (str "PR包含所有核心标签") (str "success") w.now, true)

/-- `generate_report` of the full variant (printing dropped).  The
`error_count > 0` branch also returns `True`; it is unreachable with a clear
flag anyway since `error_count` counts critical entries. -/
def generate_report (st : FullVState) : Bool :=
  if st.hasCritical then false
  else if 0 < st.results.countP (fun r => r.status == str "critical") then true
  else true

/-- `run_verification` of the full variant: tasks 1–5 halt on failure,
tasks 6–9 only record; an uncaught exception in task 4, 5 or 7 propagates
out of the whole run. -/
def run_verification (w : FullWorld) : PyOutcome Bool :=
  match setup_environment w ⟨[], false⟩ with
  | (st, false) => .ret st false
  | (st1, true) =>
    match verify_branch_existence w st1 with
    | (st, false) => .ret st false
    | (st2, true) =>
      match verify_label_document w st2 with
      | (st, false) => .ret st false
      | (st3, true) =>
        match verify_standardization_issue w st3 with
        | .raised st => .raised st
        | .ret st4 none => .ret st4 false
        | .ret st4 (some issue) =>
          match verify_standardization_pr w st4 issue with
          | .raised st => .raised st
          | .ret st5 none => .ret st5 false
          | .ret st5 (some pr) =>
            let st6 := (verify_issue_label_completeness w st5 issue).1
            match verify_issue_comments w st6 pr with
            | .raised st => .raised st
            | .ret st7 _ =>
              let st8 := (verify_document_label_consistency w st7).1
              let st9 := (verify_pr_core_labels w st8 pr).1
              .ret st9 (generate_report st9)

/-- `main`: `sys.exit(0 if success else 1)`; an exception that escapes
`run_verification` reaches the interpreter, which exits with code 1. -/
def main_exit (w : FullWorld) : Nat :=
  match run_verification w with
  | .ret _ b => if b then 0 else 1
  | .raised _ => 1

end Full

/-! ## Helper lemmas -/

/-- The critical-flag invariant of the simplified variant:
`has_critical_error` is set exactly when the log holds a critical entry. -/
def critInvS (st : VState) : Prop :=
  st.hasCritical = st.results.any (fun r => r.status == str "critical")

/-- The critical-flag invariant of the full variant. -/
def critInvF (st : FullVState) : Prop :=
  st.hasCritical = st.results.any (fun r => r.status == str "critical")

/-- The results appended to the log by one step: the final log minus the
entries already present before the step ran. -/
def appendedF (st stNew : FullVState) : List FullVResult :=
  stNew.results.drop st.results.length

lemma critInvS_init : critInvS ⟨[], false⟩ := rfl

lemma critInvF_init : critInvF ⟨[], false⟩ := rfl

lemma critInvS_record (st : VState) (t m s : Str) (h : critInvS st) :
    critInvS (Simple.record_result st t m s) := by
  unfold critInvS Simple.record_result at *
  cases hs : s == str "critical" <;> simp [hs, h, List.any_append]

lemma critInvF_record (st : FullVState) (t m s ts : Str) (h : critInvF st) :
    critInvF (Full.record_result st t m s ts) := by
  unfold critInvF Full.record_result at *
  cases hs : s == str "critical" <;> simp [hs, h, List.any_append]

lemma record_mono_S (st : VState) (t m s : Str) (h : st.hasCritical = true) :
    (Simple.record_result st t m s).hasCritical = true := by
  unfold Simple.record_result
  dsimp
  split <;> simp [h]

lemma record_mono_F (st : FullVState) (t m s ts : Str) (h : st.hasCritical = true) :
    (Full.record_result st t m s ts).hasCritical = true := by
  unfold Full.record_result
  dsimp
  split <;> simp [h]

lemma record_crit_S (st : VState) (t m : Str) :
    (Simple.record_result st t m (str "critical")).hasCritical = true := rfl

lemma record_crit_F (st : FullVState) (t m ts : Str) :
    (Full.record_result st t m (str "critical") ts).hasCritical = true := rfl

lemma record_noncrit_S (st : VState) (t m s : Str) (h : (s == str "critical") = false) :
    (Simple.record_result st t m s).hasCritical = st.hasCritical := by
  unfold Simple.record_result
  simp [h]

lemma record_noncrit_F (st : FullVState) (t m s ts : Str) (h : (s == str "critical") = false) :
    (Full.record_result st t m s ts).hasCritical = st.hasCritical := by
  unfold Full.record_result
  simp [h]

lemma parseStep_eq (labels : List Label) (rawLine : Str) :
    Simple.parseStep labels rawLine = labels ++ (Simple.labelRowOfLine rawLine).toList := by
  simp only [Simple.parseStep, Simple.labelRowOfLine]
  split
  · split
    · split <;> simp
    · simp
  · simp

lemma parse_foldl (xs : List Str) (init : List Label) :
    xs.foldl Simple.parseStep init = init ++ xs.filterMap Simple.labelRowOfLine := by
  induction xs generalizing init with
  | nil => simp
  | cons x xs ih =>
    rw [List.foldl_cons, parseStep_eq, ih, List.filterMap_cons]
    cases h : Simple.labelRowOfLine x <;> simp [h]

lemma parse_eq_filterMap (content : Str) :
    Simple.parse_label_table content
      = (splitOnChar '\n' content).filterMap Simple.labelRowOfLine := by
  unfold Simple.parse_label_table
  rw [parse_foldl]
  simp

lemma pyStrip_eq_nil {p : Char → Bool} {l : Str} (h : pyStrip p l = []) :
    ∀ c ∈ l, p c = true := by
  unfold pyStrip at h
  rw [List.reverse_eq_nil_iff, List.dropWhile_eq_nil_iff] at h
  intro c hc
  rcases List.mem_append.mp ((List.takeWhile_append_dropWhile (p := p) (l := l)) ▸ hc) with h1 | h1
  · exact List.mem_takeWhile_imp h1
  · exact h c (List.mem_reverse.mpr h1)

lemma pipe_trim_ne {line : Str} (h : List.isPrefixOf (str "|") line = true) :
    (pyTrim line == []) = false := by
  rw [beq_eq_false_iff_ne]
  intro habs
  have hmem : '|' ∈ line := by
    cases line with
    | nil => simp [str, List.isPrefixOf] at h
    | cons c t =>
      simp only [str, List.isPrefixOf, List.isPrefixOf_nil_left, Bool.and_true] at h
      have : '|' = c := by simpa using h
      simp [← this]
  have := pyStrip_eq_nil habs '|' hmem
  simp [pySpace] at this

lemma parseLoop_acc (th : Str) (lines : List Str) : ∀ it hs acc,
    Full.parseLoop th lines it hs acc = acc ++ Full.parseLoop th lines it hs [] := by
  induction lines with
  | nil => intro it hs acc; simp [Full.parseLoop]
  | cons line rest ih =>
    intro it hs acc
    simp only [Full.parseLoop]
    split
    · exact ih _ _ _
    · split
      · split
        · split <;> simp
        · simp
      · split
        · split
          · rw [ih _ _ (acc ++ _)]
            simp only [List.nil_append]
            rw [ih _ _ [_]]
            simp
          · exact ih _ _ _
        · exact ih _ _ _

lemma parseLoop_specScan (th : Str) (lines : List Str) : ∀ hs,
    Full.parseLoop th lines false hs [] = Full.specScan th none lines
    ∧ Full.parseLoop th lines true hs [] = Full.specScan th (some hs) lines := by
  induction lines with
  | nil => intro hs; exact ⟨rfl, rfl⟩
  | cons line rest ih =>
    intro hs
    constructor
    · simp only [Full.parseLoop, Full.specScan]
      split
      · exact (ih _).2
      · simp only [Bool.false_and, Bool.if_false_left, Bool.and_false, if_neg]
        simp
        exact (ih _).1
    · simp only [Full.parseLoop, Full.specScan]
      split
      · exact (ih _).2
      · by_cases hb : (pyTrim line == []) = true
        · by_cases hp : List.isPrefixOf (str "|") line = true
          · rw [pipe_trim_ne hp] at hb
            simp at hb
          · simp only [Bool.true_and, hb, if_true]
            simp [hp, hb]
        · by_cases hp : List.isPrefixOf (str "|") line = true
          · by_cases hd : substrIn (str "---") line = true
            · simp [hp, hd, hb, (ih hs).2]
            · by_cases hl : 3 ≤ (Full.pipeCells line).length
              · simp only [hp, hd, hb, hl]
                simp only [Bool.true_and, Bool.not_true, Bool.and_true, Bool.and_false]
                simp [hb, hd, hl, parseLoop_acc th rest true hs [_], (ih hs).2]
              · simp [hp, hd, hb, hl, (ih hs).2]
          · simp [hp, hb, (ih hs).2]

lemma parse_full_eq_specScan (content th : Str) :
    Full.parse_label_table content th
      = Full.specScan th none (splitOnChar '\n' content) := by
  unfold Full.parse_label_table
  exact (parseLoop_specScan th _ []).1

lemma specScan_no_header (th : Str) (lines : List Str)
    (h : ∀ line ∈ lines, substrIn th line = false) :
    Full.specScan th none lines = [] := by
  induction lines with
  | nil => rfl
  | cons line rest ih =>
    simp only [Full.specScan]
    rw [if_neg (by simp [h line (List.mem_cons_self _ _)])]
    exact ih (fun l hl => h l (List.mem_cons_of_mem _ hl))

lemma findTargetIssue_eq_find_S (issues : List Issue) :
    Simple.findTargetIssue issues
      = issues.find? (fun i => !i.pull_request && Simple.issueMatches i) := by
  induction issues with
  | nil => rfl
  | cons i rest ih =>
    simp only [Simple.findTargetIssue, List.find?]
    by_cases hp : i.pull_request <;> by_cases hm : Simple.issueMatches i = true <;>
      simp [hp, hm, ih]

lemma findTargetIssue_eq_find_F (issues : List Issue) :
    Full.findTargetIssue issues
      = issues.find? (fun i => !i.pull_request && Full.issueMatches i) := by
  induction issues with
  | nil => rfl
  | cons i rest ih =>
    simp only [Full.findTargetIssue, List.find?]
    by_cases hp : i.pull_request <;> by_cases hm : Full.issueMatches i = true <;>
      simp [hp, hm, ih]

lemma record_succ_S (st : VState) (t m : Str) :
    (Simple.record_result st t m (str "success")).hasCritical = st.hasCritical :=
  record_noncrit_S st t m (str "success") (by decide)

lemma record_warn_S (st : VState) (t m : Str) :
    (Simple.record_result st t m (str "warning")).hasCritical = st.hasCritical :=
  record_noncrit_S st t m (str "warning") (by decide)

lemma record_succ_F (st : FullVState) (t m ts : Str) :
    (Full.record_result st t m (str "success") ts).hasCritical = st.hasCritical :=
  record_noncrit_F st t m (str "success") ts (by decide)

lemma record_warn_F (st : FullVState) (t m ts : Str) :
    (Full.record_result st t m (str "warning") ts).hasCritical = st.hasCritical :=
  record_noncrit_F st t m (str "warning") ts (by decide)

lemma setup_S_inv (w : Simple.SimpleWorld) (st : VState) (h : critInvS st) :
    critInvS (Simple.setup_environment w st).1 := by
  unfold Simple.setup_environment
  split
  · exact h
  · split
    · exact h
    · exact critInvS_record _ _ _ _ h

lemma setup_S_false (w : Simple.SimpleWorld) (st : VState)
    (h : (Simple.setup_environment w st).2 = false) :
    (Simple.setup_environment w st).1 = st
      ∧ (pyTruthy w.token = false ∨ pyTruthy w.org = false
          ∨ (Simple.github_api_request w.root).1 = false) := by
  unfold Simple.setup_environment at *
  by_cases h1 : (!pyTruthy w.token || !pyTruthy w.org) = true
  · refine ⟨by simp [h1], ?_⟩
    rcases (show pyTruthy w.token = false ∨ pyTruthy w.org = false by simpa using h1) with hx | hx
    · exact Or.inl hx
    · exact Or.inr (Or.inl hx)
  · by_cases h2 : (!(Simple.github_api_request w.root).1) = true
    · exact ⟨by simp [h1, h2], Or.inr (Or.inr (by simpa using h2))⟩
    · exfalso
      simp [h1, h2] at h

lemma setup_S_true (w : Simple.SimpleWorld) (st : VState)
    (h : (Simple.setup_environment w st).2 = true) :
    (Simple.setup_environment w st).1.hasCritical = st.hasCritical := by
  unfold Simple.setup_environment at *
  by_cases h1 : (!pyTruthy w.token || !pyTruthy w.org) = true
  · simp [h1] at h
  · by_cases h2 : (!(Simple.github_api_request w.root).1) = true
    · simp [h1, h2] at h
    · simp [h1, h2, record_succ_S]

lemma branch_S_inv (w : Simple.SimpleWorld) (st : VState) (h : critInvS st) :
    critInvS (Simple.verify_branch_existence w st).1 := by
  unfold Simple.verify_branch_existence
  split <;> exact critInvS_record _ _ _ _ h

lemma branch_S_false (w : Simple.SimpleWorld) (st : VState)
    (h : (Simple.verify_branch_existence w st).2 = false) :
    (Simple.verify_branch_existence w st).1.hasCritical = true := by
  unfold Simple.verify_branch_existence at *
  by_cases hb : (Simple.github_api_request w.branch).1 = true
  · simp [hb] at h
  · simp only [hb, Bool.false_eq_true, if_false]
    exact record_crit_S _ _ _

lemma branch_S_true (w : Simple.SimpleWorld) (st : VState)
    (h : (Simple.verify_branch_existence w st).2 = true) :
    (Simple.verify_branch_existence w st).1.hasCritical = st.hasCritical := by
  unfold Simple.verify_branch_existence at *
  by_cases hb : (Simple.github_api_request w.branch).1 = true
  · simp only [hb, if_true]
    exact record_succ_S _ _ _
  · simp [hb] at h

lemma doc_S_inv (w : Simple.SimpleWorld) (st : VState) (h : critInvS st) :
    critInvS (Simple.verify_label_document w st).1 := by
  unfold Simple.verify_label_document
  split
  · split
    · dsimp only
      split <;> exact critInvS_record _ _ _ _ h
    · exact critInvS_record _ _ _ _ h
  · exact critInvS_record _ _ _ _ h

lemma doc_S_spec (w : Simple.SimpleWorld) (st : VState) :
    ((Simple.verify_label_document w st).2 = false →
        (Simple.verify_label_document w st).1.hasCritical = true)
    ∧ ((Simple.verify_label_document w st).2 = true →
        (Simple.verify_label_document w st).1.hasCritical = st.hasCritical) := by
  unfold Simple.verify_label_document
  split
  · split
    · dsimp only
      split
      · exact ⟨fun hc => by simp at hc, fun _ => record_warn_S _ _ _⟩
      · exact ⟨fun hc => by simp at hc, fun _ => record_succ_S _ _ _⟩
    · exact ⟨fun _ => record_crit_S _ _ _, fun hc => by simp at hc⟩
  · exact ⟨fun _ => record_crit_S _ _ _, fun hc => by simp at hc⟩

lemma issue_S_inv (w : Simple.SimpleWorld) (st : VState) (h : critInvS st) :
    critInvS (Simple.verify_standardization_issue w st).1 := by
  unfold Simple.verify_standardization_issue
  split
  · split <;> exact critInvS_record _ _ _ _ h
  · exact critInvS_record _ _ _ _ h

lemma report_S (st : VState) : Simple.generate_report st = !st.hasCritical := by
  unfold Simple.generate_report
  split <;> simp_all

lemma run_S_facts (w : Simple.SimpleWorld) :
    critInvS (Simple.run_verification w).1
    ∧ ((Simple.run_verification w).2 = true → (Simple.run_verification w).1.hasCritical = false)
    ∧ ((Simple.run_verification w).1.hasCritical = true → (Simple.run_verification w).2 = false)
    ∧ ((Simple.run_verification w).2 = false → (Simple.run_verification w).1.hasCritical = false →
        pyTruthy w.token = false ∨ pyTruthy w.org = false
          ∨ (Simple.github_api_request w.root).1 = false) := by
  unfold Simple.run_verification
  split
  · rename_i st hset
    have h2 := setup_S_false w ⟨[], false⟩ (by rw [hset])
    have hst : st = (⟨[], false⟩ : VState) := by rw [← h2.1, hset]
    refine ⟨?_, fun hc => by simp at hc, fun _ => rfl, fun _ _ => h2.2⟩
    show critInvS st
    rw [hst]
    exact critInvS_init
  · rename_i st1 hset
    have h1inv : critInvS st1 := by
      have := setup_S_inv w ⟨[], false⟩ critInvS_init
      rwa [hset] at this
    have h1c : st1.hasCritical = false := by
      have := setup_S_true w ⟨[], false⟩ (by rw [hset])
      rwa [hset] at this
    split
    · rename_i st hbr
      have hcrit : st.hasCritical = true := by
        have := branch_S_false w st1 (by rw [hbr])
        rwa [hbr] at this
      have hinv : critInvS st := by
        have := branch_S_inv w st1 h1inv
        rwa [hbr] at this
      exact ⟨hinv, fun hc => by simp at hc, fun _ => rfl,
        fun _ hc => absurd hcrit (by simp [show st.hasCritical = false from hc])⟩
    · rename_i st2 hbr
      have h2inv : critInvS st2 := by
        have := branch_S_inv w st1 h1inv
        rwa [hbr] at this
      split
      · rename_i st hdoc
        have hcrit : st.hasCritical = true := by
          have := (doc_S_spec w st2).1 (by rw [hdoc])
          rwa [hdoc] at this
        have hinv : critInvS st := by
          have := doc_S_inv w st2 h2inv
          rwa [hdoc] at this
        exact ⟨hinv, fun hc => by simp at hc, fun _ => rfl,
          fun _ hc => absurd hcrit (by simp [show st.hasCritical = false from hc])⟩
      · rename_i st3 hdoc
        have h4inv : critInvS ((Simple.verify_standardization_issue w st3).1) :=
          issue_S_inv w st3 (by have := doc_S_inv w st2 h2inv; rwa [hdoc] at this)
        dsimp only
        refine ⟨h4inv, ?_, ?_, ?_⟩
        · intro hc
          rw [report_S] at hc
          simpa using hc
        · intro hc
          rw [report_S]
          simp [hc]
        · intro hrf hc
          rw [report_S] at hrf
          simp [hc] at hrf

lemma setup_F_inv (w : Full.FullWorld) (st : FullVState) (h : critInvF st) :
    critInvF (Full.setup_environment w st).1 := by
  unfold Full.setup_environment
  split
  · exact critInvF_record _ _ _ _ _ h
  · split
    · exact critInvF_record _ _ _ _ _ h
    · split <;> exact critInvF_record _ _ _ _ _ h

lemma setup_F_false (w : Full.FullWorld) (st : FullVState) :
    (Full.setup_environment w st).2 = false →
      (Full.setup_environment w st).1.hasCritical = true := by
  unfold Full.setup_environment
  split
  · intro _; exact record_crit_F _ _ _ _
  · split
    · intro _; exact record_crit_F _ _ _ _
    · split
      · intro _; exact record_crit_F _ _ _ _
      · intro hc; simp at hc

lemma branch_F_inv (w : Full.FullWorld) (st : FullVState) (h : critInvF st) :
    critInvF (Full.verify_branch_existence w st).1 := by
  unfold Full.verify_branch_existence
  split <;> exact critInvF_record _ _ _ _ _ h

lemma branch_F_false (w : Full.FullWorld) (st : FullVState) :
    (Full.verify_branch_existence w st).2 = false →
      (Full.verify_branch_existence w st).1.hasCritical = true := by
  unfold Full.verify_branch_existence
  split
  · intro hc; simp at hc
  · intro _; exact record_crit_F _ _ _ _

lemma doc_F_inv (w : Full.FullWorld) (st : FullVState) (h : critInvF st) :
    critInvF (Full.verify_label_document w st).1 := by
  unfold Full.verify_label_document
  split
  · dsimp only
    split
    · exact critInvF_record _ _ _ _ _ h
    · split <;> exact critInvF_record _ _ _ _ _ h
  · exact critInvF_record _ _ _ _ _ h

lemma doc_F_false (w : Full.FullWorld) (st : FullVState) :
    (Full.verify_label_document w st).2 = false →
      (Full.verify_label_document w st).1.hasCritical = true := by
  unfold Full.verify_label_document
  split
  · dsimp only
    split
    · intro _; exact record_crit_F _ _ _ _
    · split
      · intro _; exact record_crit_F _ _ _ _
      · intro hc; simp at hc
  · intro _; exact record_crit_F _ _ _ _

lemma issue_F_inv (w : Full.FullWorld) (st : FullVState) (h : critInvF st) :
    critInvF (Full.verify_standardization_issue w st).state := by
  unfold Full.verify_standardization_issue
  split
  · split
    · exact critInvF_record _ _ _ _ _ h
    · split
      · exact h
      · dsimp only
        split <;> split <;> split <;> solve_by_elim [critInvF_record]
  · exact critInvF_record _ _ _ _ _ h

lemma issue_F_none (w : Full.FullWorld) (st st' : FullVState)
    (h : Full.verify_standardization_issue w st = .ret st' none) :
    st'.hasCritical = true := by
  unfold Full.verify_standardization_issue at h
  split at h
  · split at h
    · cases h
      exact record_crit_F _ _ _ _
    · split at h
      · cases h
      · simp at h
  · cases h
    exact record_crit_F _ _ _ _

lemma pr_F_inv (w : Full.FullWorld) (st : FullVState) (issue : Issue) (h : critInvF st) :
    critInvF (Full.verify_standardization_pr w st issue).state := by
  unfold Full.verify_standardization_pr
  split
  · split
    · exact critInvF_record _ _ _ _ _ h
    · split
      · exact h
      · dsimp only
        split <;> split <;> split <;> solve_by_elim [critInvF_record]
  · exact critInvF_record _ _ _ _ _ h

lemma pr_F_none (w : Full.FullWorld) (st st' : FullVState) (issue : Issue)
    (h : Full.verify_standardization_pr w st issue = .ret st' none) :
    st'.hasCritical = true := by
  unfold Full.verify_standardization_pr at h
  split at h
  · split at h
    · cases h
      exact record_crit_F _ _ _ _
    · split at h
      · cases h
      · simp at h
  · cases h
    exact record_crit_F _ _ _ _

lemma completeness_F_inv (w : Full.FullWorld) (st : FullVState) (issue : Issue)
    (h : critInvF st) :
    critInvF (Full.verify_issue_label_completeness w st issue).1 := by
  unfold Full.verify_issue_label_completeness
  dsimp only
  split <;> exact critInvF_record _ _ _ _ _ h

lemma comments_F_inv (w : Full.FullWorld) (st : FullVState) (pr : Full.Pull)
    (h : critInvF st) :
    critInvF (Full.verify_issue_comments w st pr).state := by
  unfold Full.verify_issue_comments
  split
  · split
    · exact h
    · dsimp only
      split <;> split <;> split <;> solve_by_elim [critInvF_record]
  · exact critInvF_record _ _ _ _ _ h

lemma consistency_F_inv (w : Full.FullWorld) (st : FullVState) (h : critInvF st) :
    critInvF (Full.verify_document_label_consistency w st).1 := by
  unfold Full.verify_document_label_consistency
  split
  · split
    · dsimp only
      split <;> split <;> split <;> solve_by_elim [critInvF_record]
    · exact critInvF_record _ _ _ _ _ h
  · exact critInvF_record _ _ _ _ _ h

lemma core_F_inv (w : Full.FullWorld) (st : FullVState) (pr : Full.Pull)
    (h : critInvF st) :
    critInvF (Full.verify_pr_core_labels w st pr).1 := by
  unfold Full.verify_pr_core_labels
  dsimp only
  split <;> exact critInvF_record _ _ _ _ _ h

lemma report_F (st : FullVState) : Full.generate_report st = !st.hasCritical := by
  unfold Full.generate_report
  split
  · simp_all
  · split <;> simp_all

lemma run_F_facts (w : Full.FullWorld) :
    critInvF (Full.run_verification w).state
    ∧ (∀ (st : FullVState) (b : Bool), Full.run_verification w = .ret st b →
        (b = true ↔ st.hasCritical = false)) := by
  unfold Full.run_verification
  split
  · rename_i st hset
    have hcrit : st.hasCritical = true := by
      have := setup_F_false w ⟨[], false⟩ (by rw [hset])
      rwa [hset] at this
    have hinv : critInvF st := by
      have := setup_F_inv w ⟨[], false⟩ critInvF_init
      rwa [hset] at this
    refine ⟨hinv, ?_⟩
    intro st' b h
    cases h
    simp [hcrit]
  · rename_i st1 hset
    have h1inv : critInvF st1 := by
      have := setup_F_inv w ⟨[], false⟩ critInvF_init
      rwa [hset] at this
    split
    · rename_i st hbr
      have hcrit : st.hasCritical = true := by
        have := branch_F_false w st1 (by rw [hbr])
        rwa [hbr] at this
      have hinv : critInvF st := by
        have := branch_F_inv w st1 h1inv
        rwa [hbr] at this
      refine ⟨hinv, ?_⟩
      intro st' b h
      cases h
      simp [hcrit]
    · rename_i st2 hbr
      have h2inv : critInvF st2 := by
        have := branch_F_inv w st1 h1inv
        rwa [hbr] at this
      split
      · rename_i st hdoc
        have hcrit : st.hasCritical = true := by
          have := doc_F_false w st2 (by rw [hdoc])
          rwa [hdoc] at this
        have hinv : critInvF st := by
          have := doc_F_inv w st2 h2inv
          rwa [hdoc] at this
        refine ⟨hinv, ?_⟩
        intro st' b h
        cases h
        simp [hcrit]
      · rename_i st3 hdoc
        have h3inv : critInvF st3 := by
          have := doc_F_inv w st2 h2inv
          rwa [hdoc] at this
        split
        · rename_i st hiss
          have hinv : critInvF st := by
            have := issue_F_inv w st3 h3inv
            rw [hiss] at this
            exact this
          refine ⟨hinv, ?_⟩
          intro st' b h
          cases h
        · rename_i st4 hiss
          have hcrit : st4.hasCritical = true := issue_F_none w st3 st4 hiss
          have h4inv : critInvF st4 := by
            have := issue_F_inv w st3 h3inv
            rw [hiss] at this
            exact this
          refine ⟨h4inv, ?_⟩
          intro st' b h
          cases h
          simp [hcrit]
        · rename_i st4 issue hiss
          have h4inv : critInvF st4 := by
            have := issue_F_inv w st3 h3inv
            rw [hiss] at this
            exact this
          split
          · rename_i st hpr
            have hinv : critInvF st := by
              have := pr_F_inv w st4 issue h4inv
              rw [hpr] at this
              exact this
            refine ⟨hinv, ?_⟩
            intro st' b h
            cases h
          · rename_i st5 hpr
            have hcrit : st5.hasCritical = true := pr_F_none w st4 st5 issue hpr
            have h5inv : critInvF st5 := by
              have := pr_F_inv w st4 issue h4inv
              rw [hpr] at this
              exact this
            refine ⟨h5inv, ?_⟩
            intro st' b h
            cases h
            simp [hcrit]
          · rename_i st5 pr hpr
            have h5inv : critInvF st5 := by
              have := pr_F_inv w st4 issue h4inv
              rw [hpr] at this
              exact this
            have h6inv : critInvF ((Full.verify_issue_label_completeness w st5 issue).1) :=
              completeness_F_inv w st5 issue h5inv
            dsimp only
            split
            · rename_i st hcom
              have hinv : critInvF st := by
                have := comments_F_inv w
                  ((Full.verify_issue_label_completeness w st5 issue).1) pr h6inv
                rw [hcom] at this
                exact this
              refine ⟨hinv, ?_⟩
              intro st' b h
              cases h
            · rename_i st7 vb hcom
              have h7inv : critInvF st7 := by
                have := comments_F_inv w
                  ((Full.verify_issue_label_completeness w st5 issue).1) pr h6inv
                rw [hcom] at this
                exact this
              have h9inv := core_F_inv w _ pr (consistency_F_inv w _ h7inv)
              refine ⟨h9inv, ?_⟩
              intro st' b h
              cases h
              rw [report_F]
              simp

/-! ## Claim theorems -/

/-- C4: the simplified-variant parser includes a line as a label row exactly
when, after trimming, the line starts with `|`, contains `#`, does not
contain `---`, and — after stripping the outer pipes, splitting on `|` and
trimming — has a non-empty first cell and a second cell beginning with `#`;
each qualifying row maps to `{name: cell0, color: cell1}` (so
`| bug | #d73a4a | desc |` yields `{name: "bug", color: "#d73a4a"}`),
separator rows and rows whose second cell lacks a `#` are dropped, and the
parser is a total function of the document text. -/
theorem parse_label_table_line_rule :
    (∀ content : Str, Simple.parse_label_table content
        = (splitOnChar '\n' content).filterMap Simple.labelRowOfLine)
    ∧ (∀ rawLine : Str, ∀ lbl : Label,
        Simple.labelRowOfLine rawLine = some lbl ↔
          (List.isPrefixOf (str "|") (pyTrim rawLine) = true
           ∧ (pyTrim rawLine).contains '#' = true
           ∧ substrIn (str "---") (pyTrim rawLine) = false
           ∧ ∃ c0 c1 rest,
               (splitOnChar '|' (pyStrip (· == '|') (pyTrim rawLine))).map pyTrim
                   = c0 :: c1 :: rest
               ∧ c0 ≠ [] ∧ List.isPrefixOf (str "#") c1 = true ∧ lbl = ⟨c0, c1⟩))
    ∧ Simple.parse_label_table (str "| bug | #d73a4a | desc |")
        = [⟨str "bug", str "#d73a4a"⟩] := by
  refine ⟨parse_eq_filterMap, fun rawLine lbl => ?_, by decide⟩
  simp only [Simple.labelRowOfLine]
  by_cases h1 : List.isPrefixOf (str "|") (pyTrim rawLine) = true
  · by_cases h2 : (pyTrim rawLine).contains '#' = true
    · by_cases h3 : substrIn (str "---") (pyTrim rawLine) = true
      · rw [if_neg (by simp [h3])]
        constructor
        · intro h
          exact absurd h (by simp)
        · rintro ⟨-, -, h3x, -⟩
          rw [h3] at h3x
          cases h3x
      · have h3x : substrIn (str "---") (pyTrim rawLine) = false := by simpa using h3
        have h2m : '#' ∈ pyTrim rawLine := by simpa using h2
        have hcond : (List.isPrefixOf (str "|") (pyTrim rawLine)
            && (pyTrim rawLine).contains '#'
            && !(substrIn (str "---") (pyTrim rawLine))) = true := by
          simp [h1, h2m, h3x]
        rw [if_pos hcond]
        generalize hcells :
          (splitOnChar '|' (pyStrip (· == '|') (pyTrim rawLine))).map pyTrim = cells
        rcases cells with _ | ⟨c0, rest0⟩
        · constructor
          · intro h
            exact absurd h (by simp)
          · rintro ⟨-, -, -, c0x, c1x, restx, hcx, -⟩
            simp at hcx
        · rcases rest0 with _ | ⟨c1, rest⟩
          · constructor
            · intro h
              exact absurd h (by simp)
            · rintro ⟨-, -, -, c0x, c1x, restx, hcx, -⟩
              simp at hcx
          · dsimp only
            by_cases h40 : c0 = []
            · rw [if_neg (by simp [h40])]
              constructor
              · intro h
                exact absurd h (by simp)
              · rintro ⟨-, -, -, c0x, c1x, restx, hcx, hnex, -, -⟩
                obtain ⟨e1, -, -⟩ : c0 = c0x ∧ c1 = c1x ∧ rest = restx := by simpa using hcx
                exact (hnex (e1 ▸ h40)).elim
            · by_cases h41 : List.isPrefixOf (str "#") c1 = true
              · rw [if_pos (by simp [Bool.and_eq_true, bne_iff_ne, h40, h41])]
                constructor
                · intro h
                  injection h with h
                  exact ⟨h1, h2, h3x, c0, c1, rest, rfl, h40, h41, h.symm⟩
                · rintro ⟨-, -, -, c0x, c1x, restx, hcx, -, -, hlbl⟩
                  obtain ⟨e1, e2, -⟩ : c0 = c0x ∧ c1 = c1x ∧ rest = restx := by simpa using hcx
                  rw [hlbl, e1, e2]
              · rw [if_neg (by simp [h41])]
                constructor
                · intro h
                  exact absurd h (by simp)
                · rintro ⟨-, -, -, c0x, c1x, restx, hcx, -, hprex, -⟩
                  obtain ⟨-, e2, -⟩ : c0 = c0x ∧ c1 = c1x ∧ rest = restx := by simpa using hcx
                  exact (h41 (e2 ▸ hprex)).elim
    · have h2f : ¬('#' ∈ pyTrim rawLine) := by simpa using h2
      rw [if_neg (by simp [h2f])]
      constructor
      · intro h
        exact absurd h (by simp)
      · rintro ⟨-, h2x, -⟩
        exact (h2 h2x).elim
  · have h1f : ¬(str "|" <+: pyTrim rawLine) := by simpa using h1
    rw [if_neg (by simp [h1f])]
    constructor
    · intro h
      exact absurd h (by simp)
    · rintro ⟨h1x, -⟩
      exact (h1 h1x).elim

/-- C10: every row returned by the simplified `parse_label_table` has a
non-empty name and a color beginning with `#`; the parser is total, so no
input can make it fail. -/
theorem parse_label_table_row_shape (content : Str) (lbl : Label)
    (h : lbl ∈ Simple.parse_label_table content) :
    lbl.name ≠ [] ∧ List.isPrefixOf (str "#") lbl.color = true := by
  rw [parse_eq_filterMap] at h
  rcases List.mem_filterMap.mp h with ⟨line, _, hline⟩
  simp only [Simple.labelRowOfLine] at hline
  split at hline
  · split at hline
    · rename_i c0 c1 rest hcells
      split at hline
      · rename_i hcond
        cases hline
        have h0 : (c0 != []) = true := by
          cases hb : (c0 != []) <;> simp [hb] at hcond ⊢
        have h1 : List.isPrefixOf (str "#") c1 = true := by
          cases hb : List.isPrefixOf (str "#") c1 <;> simp [hb] at hcond ⊢
        exact ⟨by simpa using h0, h1⟩
      · cases hline
    · cases hline
  · cases hline

/-- C10 witness: the row parsed from `| bug | #d73a4a |` indeed has a
non-empty name and a `#`-prefixed color. -/
theorem parse_label_table_row_shape_witness :
    (⟨str "bug", str "#d73a4a"⟩ : Label).name ≠ []
      ∧ List.isPrefixOf (str "#") (⟨str "bug", str "#d73a4a"⟩ : Label).color = true :=
  parse_label_table_row_shape (str "| bug | #d73a4a |") ⟨str "bug", str "#d73a4a"⟩ (by decide)

/-- C5: in both variants, `github_api_request` returns `(True, body)` exactly
for an HTTP 200 response and `(False, None)` for every other status code and
for every raised request exception; the two variants implement the same
contract, and the definition consumes a single request outcome — no retry is
performed. -/
theorem github_api_request_contract :
    (∀ (α : Type) (o : HttpOutcome α),
        Simple.github_api_request o = Full.github_api_request o)
    ∧ (∀ (α : Type) (b : α),
        Simple.github_api_request (HttpOutcome.resp 200 b) = (true, some b))
    ∧ (∀ (α : Type) (code : Nat) (b : α), code ≠ 200 →
        Simple.github_api_request (HttpOutcome.resp code b) = (false, none))
    ∧ (∀ (α : Type),
        Simple.github_api_request (HttpOutcome.exc : HttpOutcome α) = (false, none)) := by
  refine ⟨fun α o => ?_, fun α b => rfl, fun α code b hc => ?_, fun α => rfl⟩
  · cases o with
    | exc => rfl
    | resp code b =>
      unfold Simple.github_api_request Full.github_api_request
      by_cases h : (code == 200) = true <;> simp [h]
  · unfold Simple.github_api_request
    have h : (code == 200) = false := by simpa using hc
    simp [h]

/-- C5 witness: a 404 response yields `(False, None)`. -/
theorem github_api_request_contract_witness :
    Simple.github_api_request (HttpOutcome.resp 404 (0 : Nat)) = (false, none) :=
  github_api_request_contract.2.2.1 Nat 404 0 (by decide)

/-- C6: in both variants the issue search returns the first listed issue
that is not a pull request and whose title matches a configured keyword
(the simplified variant also accepts a body-keyword match, both
case-insensitively); on the two-issue list
`[{title: "Fix bug"}, {title: "标签标准化需求"}]` both variants select the
second issue. -/
theorem standardization_issue_matcher :
    (∀ issues : List Issue, Simple.findTargetIssue issues
        = issues.find? (fun i => !i.pull_request && Simple.issueMatches i))
    ∧ (∀ issues : List Issue, Full.findTargetIssue issues
        = issues.find? (fun i => !i.pull_request && Full.issueMatches i))
    ∧ Simple.findTargetIssue
        [⟨some (str "Fix bug"), JsonStr.absent, false, 1, []⟩,
         ⟨some (str "标签标准化需求"), JsonStr.absent, false, 2, []⟩]
        = some ⟨some (str "标签标准化需求"), JsonStr.absent, false, 2, []⟩
    ∧ Full.findTargetIssue
        [⟨some (str "Fix bug"), JsonStr.absent, false, 1, []⟩,
         ⟨some (str "标签标准化需求"), JsonStr.absent, false, 2, []⟩]
        = some ⟨some (str "标签标准化需求"), JsonStr.absent, false, 2, []⟩ :=
  ⟨findTargetIssue_eq_find_S, findTargetIssue_eq_find_F, by decide, by decide⟩

/-- C9: in both variants `record_result` appends exactly one entry to the
log and never removes or edits entries; the `has_critical_error` flag is set
exactly when the new status is critical or it was already set (so it is
never reset), and it stays equal to "the log contains a critical entry"
whenever it was before the call; consequently the flag equals that predicate
after every check of both full runs. -/
theorem record_result_spec :
    (∀ (st : VState) (t m s : Str),
        (Simple.record_result st t m s).results = st.results ++ [⟨t, m, s⟩])
    ∧ (∀ (st : VState) (t m s : Str),
        (Simple.record_result st t m s).hasCritical = true ↔
          (st.hasCritical = true ∨ s = str "critical"))
    ∧ (∀ (st : VState) (t m s : Str), critInvS st →
        critInvS (Simple.record_result st t m s))
    ∧ (∀ (st : FullVState) (t m s ts : Str),
        (Full.record_result st t m s ts).results = st.results ++ [⟨t, m, s, ts⟩])
    ∧ (∀ (st : FullVState) (t m s ts : Str),
        (Full.record_result st t m s ts).hasCritical = true ↔
          (st.hasCritical = true ∨ s = str "critical"))
    ∧ (∀ (st : FullVState) (t m s ts : Str), critInvF st →
        critInvF (Full.record_result st t m s ts))
    ∧ (∀ w : Simple.SimpleWorld, critInvS (Simple.run_verification w).1)
    ∧ (∀ w : Full.FullWorld, critInvF (Full.run_verification w).state) := by
  refine ⟨fun st t m s => rfl, fun st t m s => ?_, critInvS_record,
    fun st t m s ts => rfl, fun st t m s ts => ?_, critInvF_record,
    fun w => (run_S_facts w).1, fun w => (run_F_facts w).1⟩
  · unfold Simple.record_result
    cases hs : s == str "critical"
    · dsimp only
      rw [if_neg (by simp [hs])]
      constructor
      · exact Or.inl
      · rintro (h | h)
        · exact h
        · rw [h] at hs
          simp at hs
    · dsimp only
      constructor
      · intro _
        exact Or.inr (eq_of_beq hs)
      · intro _
        simp
  · unfold Full.record_result
    cases hs : s == str "critical"
    · dsimp only
      rw [if_neg (by simp [hs])]
      constructor
      · exact Or.inl
      · rintro (h | h)
        · exact h
        · rw [h] at hs
          simp at hs
    · dsimp only
      constructor
      · intro _
        exact Or.inr (eq_of_beq hs)
      · intro _
        simp

/-- C9 witness: recording a critical entry on the empty state preserves the
flag/log invariant. -/
theorem record_result_spec_witness :
    critInvS (Simple.record_result ⟨[], false⟩ (str "t") (str "m") (str "critical")) :=
  record_result_spec.2.2.1 ⟨[], false⟩ (str "t") (str "m") (str "critical") rfl

/-- C7: in the simplified variant, when the document decodes and the parsed
label count equals the configured minimum of 12 (so `count < minimum` is
false), `verify_label_document` records a success result, not a warning,
and returns `True`. -/
theorem label_document_exact_minimum (w : Simple.SimpleWorld) (st : VState) (content : Str)
    (hc : w.contents = HttpOutcome.resp 200 ⟨some content⟩)
    (hn : (Simple.parse_label_table content).length = Simple.min_label_count) :
    Simple.verify_label_document w st
      = (Simple.record_result st (str "文档验证")
          (str "标签文档完整, 包含 " ++ natStr (Simple.parse_label_table content).length
            ++ str " 个标签") (str "success"), true) := by
  unfold Simple.verify_label_document
  rw [hc]
  have hlt : ¬((Simple.parse_label_table content).length < Simple.min_label_count) := by
    rw [hn]
    exact Nat.lt_irrefl _
  have hreq : Simple.github_api_request (HttpOutcome.resp 200 (⟨some content⟩ : Simple.ContentsResp))
      = (true, some ⟨some content⟩) := rfl
  rw [hreq]
  dsimp only
  rw [if_neg hlt]

/-- C7 witness: a document with exactly 12 qualifying rows and the
configured minimum of 12 yields a success record. -/
theorem label_document_exact_minimum_witness :
    Simple.verify_label_document
        ⟨some (str "t"), some (str "o"), HttpOutcome.resp 200 (), HttpOutcome.resp 200 (),
         HttpOutcome.resp 200
           ⟨some (str "|a|#1\n|a|#1\n|a|#1\n|a|#1\n|a|#1\n|a|#1\n|a|#1\n|a|#1\n|a|#1\n|a|#1\n|a|#1\n|a|#1")⟩,
         HttpOutcome.exc⟩ ⟨[], false⟩
      = (Simple.record_result ⟨[], false⟩ (str "文档验证")
          (str "标签文档完整, 包含 "
            ++ natStr (Simple.parse_label_table
                (str "|a|#1\n|a|#1\n|a|#1\n|a|#1\n|a|#1\n|a|#1\n|a|#1\n|a|#1\n|a|#1\n|a|#1\n|a|#1\n|a|#1")).length
            ++ str " 个标签") (str "success"), true) :=
  label_document_exact_minimum _ ⟨[], false⟩ _ rfl (by decide)

/-- C1 counterexample: a simplified-variant run with no `GITHUB_TOKEN` in
the environment exits with code 1 although its result log is empty, so no
critical result was recorded — refuting "exits 1 iff a critical result was
recorded"; and a full-variant run that reaches a matched issue whose JSON
body is null dies with an uncaught TypeError and exits 1 with only success
results recorded. -/
theorem exit_code_counterexample :
    Simple.main_exit ⟨none, none, HttpOutcome.exc, HttpOutcome.exc, HttpOutcome.exc,
        HttpOutcome.exc⟩ = 1
    ∧ (Simple.run_verification ⟨none, none, HttpOutcome.exc, HttpOutcome.exc, HttpOutcome.exc,
        HttpOutcome.exc⟩).1.results = []
    ∧ Full.main_exit ⟨some (str "t"), some (str "o"), str "ts",
        HttpOutcome.resp 200 (), HttpOutcome.resp 200 (),
        HttpOutcome.resp 200 ⟨Full.table_header
          ++ str "\n|a|b|c\n|a|b|c\n|a|b|c\n|a|b|c\n|a|b|c\n|a|b|c\n|a|b|c\n|a|b|c\n|a|b|c\n|a|b|c\n|a|b|c\n|a|b|c\n|a|b|c\n|a|b|c\n|a|b|c"⟩,
        HttpOutcome.resp 200 [⟨some (str "标签标准化需求"), JsonStr.null, false, 1, []⟩],
        HttpOutcome.exc, HttpOutcome.exc, HttpOutcome.exc, HttpOutcome.exc⟩ = 1
    ∧ ((Full.run_verification ⟨some (str "t"), some (str "o"), str "ts",
        HttpOutcome.resp 200 (), HttpOutcome.resp 200 (),
        HttpOutcome.resp 200 ⟨Full.table_header
          ++ str "\n|a|b|c\n|a|b|c\n|a|b|c\n|a|b|c\n|a|b|c\n|a|b|c\n|a|b|c\n|a|b|c\n|a|b|c\n|a|b|c\n|a|b|c\n|a|b|c\n|a|b|c\n|a|b|c\n|a|b|c"⟩,
        HttpOutcome.resp 200 [⟨some (str "标签标准化需求"), JsonStr.null, false, 1, []⟩],
        HttpOutcome.exc, HttpOutcome.exc, HttpOutcome.exc, HttpOutcome.exc⟩).state.results.map
      (fun r => (r.task, r.status)))
      = [(str "环境验证", str "success"), (str "分支验证", str "success"),
         (str "文档验证", str "success")]
    ∧ (Full.run_verification ⟨some (str "t"), some (str "o"), str "ts",
        HttpOutcome.resp 200 (), HttpOutcome.resp 200 (),
        HttpOutcome.resp 200 ⟨Full.table_header
          ++ str "\n|a|b|c\n|a|b|c\n|a|b|c\n|a|b|c\n|a|b|c\n|a|b|c\n|a|b|c\n|a|b|c\n|a|b|c\n|a|b|c\n|a|b|c\n|a|b|c\n|a|b|c\n|a|b|c\n|a|b|c"⟩,
        HttpOutcome.resp 200 [⟨some (str "标签标准化需求"), JsonStr.null, false, 1, []⟩],
        HttpOutcome.exc, HttpOutcome.exc, HttpOutcome.exc, HttpOutcome.exc⟩).crashed = true := by
  decide

/-- C1 (amended): in both variants a recorded critical result forces exit
code 1 and exit code 0 implies no critical result was recorded (warnings
never affect the exit code); in the full variant the exit code is 1 exactly
when a critical result was recorded or the run died with an uncaught
exception (a matched issue, matched PR, or listed comment whose JSON body
is null); in the simplified variant exit code 1 with no critical result can
occur, but only when environment setup fails before recording anything
(missing token or org, or a failed API connectivity test). -/
theorem exit_code_amended :
    (∀ w : Simple.SimpleWorld,
        ((Simple.run_verification w).1.results.any (fun r => r.status == str "critical") = true →
          Simple.main_exit w = 1)
        ∧ (Simple.main_exit w = 0 →
            (Simple.run_verification w).1.results.any (fun r => r.status == str "critical") = false)
        ∧ (Simple.main_exit w = 1 →
            (Simple.run_verification w).1.results.any (fun r => r.status == str "critical") = false →
            pyTruthy w.token = false ∨ pyTruthy w.org = false
              ∨ (Simple.github_api_request w.root).1 = false))
    ∧ (∀ w : Full.FullWorld,
        Full.main_exit w = 1 ↔
          ((Full.run_verification w).state.results.any
              (fun r => r.status == str "critical") = true
            ∨ (Full.run_verification w).crashed = true)) := by
  constructor
  · intro w
    obtain ⟨hinv, h2, h3, h4⟩ := run_S_facts w
    unfold critInvS at hinv
    refine ⟨?_, ?_, ?_⟩
    · intro hany
      have hc : (Simple.run_verification w).1.hasCritical = true := by rw [hinv, hany]
      unfold Simple.main_exit
      rw [h3 hc]
      rfl
    · intro hexit
      cases hr : (Simple.run_verification w).2 with
      | false =>
        unfold Simple.main_exit at hexit
        rw [hr] at hexit
        simp at hexit
      | true =>
        rw [← hinv]
        exact h2 hr
    · intro hexit hany
      have hr : (Simple.run_verification w).2 = false := by
        cases hr : (Simple.run_verification w).2 with
        | false => rfl
        | true =>
          unfold Simple.main_exit at hexit
          rw [hr] at hexit
          simp at hexit
      exact h4 hr (by rw [hinv, hany])
  · intro w
    obtain ⟨hinv, hiff⟩ := run_F_facts w
    unfold critInvF at hinv
    unfold Full.main_exit
    cases hrun : Full.run_verification w with
    | ret st b =>
      rw [hrun] at hinv
      have hb := hiff st b hrun
      dsimp only [PyOutcome.state, PyOutcome.crashed] at hinv ⊢
      constructor
      · intro hexit
        left
        cases b with
        | true => simp at hexit
        | false =>
          have hc : st.hasCritical = true := by
            cases hsc : st.hasCritical with
            | true => rfl
            | false => exact absurd (hb.mpr hsc) (by simp)
          rw [← hinv]
          exact hc
      · intro hor
        rcases hor with hany | hcr
        · have hc : st.hasCritical = true := by rw [hinv, hany]
          cases b with
          | false => simp
          | true => exact absurd (hb.mp rfl) (by simp [hc])
        · simp at hcr
    | raised st =>
      constructor
      · intro _
        right
        rfl
      · intro _
        rfl

/-- C1 witness: a full-variant run whose branch request raises exits with
code 1, via the amended equivalence. -/
theorem exit_code_amended_witness :
    Full.main_exit ⟨some (str "t"), some (str "o"), str "ts", HttpOutcome.resp 200 (),
        HttpOutcome.exc, HttpOutcome.exc, HttpOutcome.exc, HttpOutcome.exc, HttpOutcome.exc,
        HttpOutcome.exc, HttpOutcome.exc⟩ = 1 :=
  (exit_code_amended.2 _).mpr (by decide)

/-- C8 counterexample: in the full variant, a second line containing the
configured table header satisfies every stated collection condition — it
starts with `|`, contains no `---`, splits into at least three cells, is
not blank, and follows the header line — yet the parser returns no rows for
the two-header document, because a header-containing line always re-enters
header mode instead of being collected. -/
theorem parse_label_table_full_counterexample :
    Full.parse_label_table (Full.table_header ++ str "\n" ++ Full.table_header)
        Full.table_header = []
    ∧ List.isPrefixOf (str "|") Full.table_header = true
    ∧ substrIn (str "---") Full.table_header = false
    ∧ 3 ≤ (Full.pipeCells Full.table_header).length
    ∧ (pyTrim Full.table_header == []) = false := by decide

/-- C8 (amended): the full-variant parser equals a phase-split scan: it
returns no rows unless some line contains the literal table header; a line
containing the header (re)enters table mode — so such a line is itself
never collected as a row even when it meets the data-row conditions; in
table mode the scan stops at the first blank line, and every other line
that starts with `|`, does not contain `---` and splits into at least three
cells after stripping outer pipes is collected as a row zipped with the
most recent header cells. -/
theorem parse_label_table_full_amended :
    (∀ content th : Str,
        Full.parse_label_table content th = Full.specScan th none (splitOnChar '\n' content))
    ∧ (∀ content th : Str,
        (∀ line ∈ splitOnChar '\n' content, substrIn th line = false) →
        Full.parse_label_table content th = []) := by
  refine ⟨parse_full_eq_specScan, fun content th h => ?_⟩
  rw [parse_full_eq_specScan]
  exact specScan_no_header th _ h

/-- C8 witness: a pipe-and-cells document with no header line parses to no
rows. -/
theorem parse_label_table_full_amended_witness :
    Full.parse_label_table (str "|a|b|c") Full.table_header = [] :=
  parse_label_table_full_amended.2 (str "|a|b|c") Full.table_header (by decide)

/-- C2 counterexample: in the simplified variant a missing label document
(non-200 contents response) is recorded as critical, not warning, and the
run halts before the issue check — the final log has no issue-check entry
and the run returns failure. -/
theorem label_document_critical_counterexample :
    ((Simple.run_verification ⟨some (str "t"), some (str "o"), HttpOutcome.resp 200 (),
        HttpOutcome.resp 200 (), HttpOutcome.exc, HttpOutcome.exc⟩).1.results.map
      (fun r => (r.task, r.status)))
      = [(str "环境验证", str "success"), (str "分支验证", str "success"),
         (str "文档验证", str "critical")]
    ∧ (Simple.run_verification ⟨some (str "t"), some (str "o"), HttpOutcome.resp 200 (),
        HttpOutcome.resp 200 (), HttpOutcome.exc, HttpOutcome.exc⟩).2 = false := by decide

/-- C2 (amended): in the simplified variant only the below-minimum label
count is downgraded to a warning with the pipeline continuing to the issue
check; a missing document (non-200 response) and undecodable content are
recorded as critical and make `verify_label_document` return `False`, which
halts `run_verification` before the issue check. -/
theorem label_document_failure_modes_amended :
    (∀ (w : Simple.SimpleWorld) (st : VState) (content : Str),
        w.contents = HttpOutcome.resp 200 ⟨some content⟩ →
        (Simple.parse_label_table content).length < Simple.min_label_count →
        Simple.verify_label_document w st
          = (Simple.record_result st (str "文档验证")
              (str "标签数量不足: 需要至少 " ++ natStr Simple.min_label_count ++ str " 个, 实际 "
                ++ natStr (Simple.parse_label_table content).length ++ str " 个")
              (str "warning"), true))
    ∧ (∀ (w : Simple.SimpleWorld) (st : VState),
        (Simple.github_api_request w.contents).1 = false →
        Simple.verify_label_document w st
          = (Simple.record_result st (str "文档验证")
              (str "标签文档 " ++ Simple.doc_file ++ str " 不存在") (str "critical"), false))
    ∧ (∀ (w : Simple.SimpleWorld) (st : VState),
        w.contents = HttpOutcome.resp 200 ⟨none⟩ →
        Simple.verify_label_document w st
          = (Simple.record_result st (str "文档验证") (str "文档内容解码失败") (str "critical"), false))
    ∧ (∀ w : Simple.SimpleWorld,
        pyTruthy w.token = true → pyTruthy w.org = true →
        (Simple.github_api_request w.root).1 = true →
        (Simple.github_api_request w.branch).1 = true →
        ((∀ content : Str, w.contents = HttpOutcome.resp 200 ⟨some content⟩ →
            (Simple.run_verification w).1.results.map (fun r => r.task)
              = [str "环境验证", str "分支验证", str "文档验证", str "Issue验证"])
         ∧ ((Simple.github_api_request w.contents).1 = false
              ∨ w.contents = HttpOutcome.resp 200 ⟨none⟩ →
            (Simple.run_verification w).1.results.map (fun r => r.task)
              = [str "环境验证", str "分支验证", str "文档验证"]
            ∧ (Simple.run_verification w).2 = false))) := by
  have part1 : ∀ (w : Simple.SimpleWorld) (st : VState) (content : Str),
      w.contents = HttpOutcome.resp 200 ⟨some content⟩ →
      (Simple.parse_label_table content).length < Simple.min_label_count →
      Simple.verify_label_document w st
        = (Simple.record_result st (str "文档验证")
            (str "标签数量不足: 需要至少 " ++ natStr Simple.min_label_count ++ str " 个, 实际 "
              ++ natStr (Simple.parse_label_table content).length ++ str " 个")
            (str "warning"), true) := by
    intro w st content hc hn
    unfold Simple.verify_label_document
    rw [hc]
    have hreq : Simple.github_api_request (HttpOutcome.resp 200 (⟨some content⟩ : Simple.ContentsResp))
        = (true, some ⟨some content⟩) := rfl
    rw [hreq]
    dsimp only
    rw [if_pos hn]
  have part2 : ∀ (w : Simple.SimpleWorld) (st : VState),
      (Simple.github_api_request w.contents).1 = false →
      Simple.verify_label_document w st
        = (Simple.record_result st (str "文档验证")
            (str "标签文档 " ++ Simple.doc_file ++ str " 不存在") (str "critical"), false) := by
    intro w st h
    unfold Simple.verify_label_document
    rcases hr : Simple.github_api_request w.contents with ⟨b, ob⟩
    cases b
    · rfl
    · exfalso
      simp [hr] at h
  have part3 : ∀ (w : Simple.SimpleWorld) (st : VState),
      w.contents = HttpOutcome.resp 200 ⟨none⟩ →
      Simple.verify_label_document w st
        = (Simple.record_result st (str "文档验证") (str "文档内容解码失败") (str "critical"), false) := by
    intro w st hc
    unfold Simple.verify_label_document
    rw [hc]
    have hreq : Simple.github_api_request (HttpOutcome.resp 200 (⟨none⟩ : Simple.ContentsResp))
        = (true, some ⟨none⟩) := rfl
    rw [hreq]
  refine ⟨part1, part2, part3, ?_⟩
  intro w htok horg hroot hbr
  have hsetup : Simple.setup_environment w ⟨[], false⟩
      = (Simple.record_result ⟨[], false⟩ (str "环境验证") (str "环境配置正确，API连接成功")
          (str "success"), true) := by
    unfold Simple.setup_environment
    rw [if_neg (by simp [htok, horg]), if_neg (by simp [hroot])]
  have hbranch : ∀ st : VState, Simple.verify_branch_existence w st
      = (Simple.record_result st (str "分支验证")
          (str "功能分支 " ++ Simple.branch_name ++ str " 存在") (str "success"), true) := by
    intro st
    unfold Simple.verify_branch_existence
    rw [if_pos hbr]
  obtain ⟨m4, s4, o4, hiss⟩ : ∃ m s o, ∀ st : VState,
      Simple.verify_standardization_issue w st
        = (Simple.record_result st (str "Issue验证") m s, o) := by
    unfold Simple.verify_standardization_issue
    rcases hr : Simple.github_api_request w.issues with ⟨b, ob⟩
    cases b
    · exact ⟨str "无法获取Issue列表", str "critical", none, fun st => rfl⟩
    · cases ob with
      | none => exact ⟨str "无法获取Issue列表", str "critical", none, fun st => rfl⟩
      | some issues =>
        cases hf : Simple.findTargetIssue issues with
        | none =>
          exact ⟨str "未找到标准化需求Issue", str "warning", none, fun st => by
            dsimp only
            rw [hf]⟩
        | some target =>
          exact ⟨str "标准化Issue #" ++ natStr target.number ++ str " 验证完成: "
              ++ target.title.getD [], str "success", some target, fun st => by
            dsimp only
            rw [hf]⟩
  constructor
  · intro content hc
    obtain ⟨m3, s3, hdoc⟩ : ∃ m s, ∀ st : VState,
        Simple.verify_label_document w st
          = (Simple.record_result st (str "文档验证") m s, true) := by
      by_cases hn : (Simple.parse_label_table content).length < Simple.min_label_count
      · exact ⟨str "标签数量不足: 需要至少 " ++ natStr Simple.min_label_count ++ str " 个, 实际 "
            ++ natStr (Simple.parse_label_table content).length ++ str " 个", str "warning",
          fun st => part1 w st content hc hn⟩
      · refine ⟨str "标签文档完整, 包含 " ++ natStr (Simple.parse_label_table content).length
            ++ str " 个标签", str "success", fun st => ?_⟩
        unfold Simple.verify_label_document
        rw [hc]
        have hreq : Simple.github_api_request
            (HttpOutcome.resp 200 (⟨some content⟩ : Simple.ContentsResp))
            = (true, some ⟨some content⟩) := rfl
        rw [hreq]
        dsimp only
        rw [if_neg hn]
    unfold Simple.run_verification
    rw [hsetup]
    dsimp only
    rw [hbranch]
    dsimp only
    rw [hdoc]
    dsimp only
    rw [hiss]
    dsimp only
    simp [Simple.record_result]
  · intro hfail
    obtain ⟨m3, hdoc⟩ : ∃ m, ∀ st : VState,
        Simple.verify_label_document w st
          = (Simple.record_result st (str "文档验证") m (str "critical"), false) := by
      rcases hfail with h | h
      · exact ⟨str "标签文档 " ++ Simple.doc_file ++ str " 不存在", fun st => part2 w st h⟩
      · exact ⟨str "文档内容解码失败", fun st => part3 w st h⟩
    unfold Simple.run_verification
    rw [hsetup]
    dsimp only
    rw [hbranch]
    dsimp only
    rw [hdoc]
    dsimp only
    exact ⟨by simp [Simple.record_result], rfl⟩

/-- C2 witness: an empty document decodes, parses to zero rows (below the
minimum of 12), and the check records a warning and returns `True`. -/
theorem label_document_failure_modes_amended_witness :
    Simple.verify_label_document
        ⟨some (str "t"), some (str "o"), HttpOutcome.resp 200 (), HttpOutcome.resp 200 (),
         HttpOutcome.resp 200 ⟨some []⟩, HttpOutcome.exc⟩ ⟨[], false⟩
      = (Simple.record_result ⟨[], false⟩ (str "文档验证")
          (str "标签数量不足: 需要至少 " ++ natStr Simple.min_label_count ++ str " 个, 实际 "
            ++ natStr (Simple.parse_label_table []).length ++ str " 个")
          (str "warning"), true) :=
  label_document_failure_modes_amended.1 _ ⟨[], false⟩ [] rfl (by decide)

lemma appendedF_one (st : FullVState) (t m s ts : Str) :
    appendedF st (Full.record_result st t m s ts) = [⟨t, m, s, ts⟩] := by
  unfold appendedF Full.record_result
  dsimp only
  exact List.drop_left _ _

lemma appendedF_two (st : FullVState) (t m s ts tx mx sx tsx : Str) :
    appendedF st (Full.record_result (Full.record_result st t m s ts) tx mx sx tsx)
      = [⟨t, m, s, ts⟩, ⟨tx, mx, sx, tsx⟩] := by
  unfold appendedF Full.record_result
  dsimp only
  rw [List.append_assoc]
  exact List.drop_left _ _

/-- C3 counterexample: when the document re-fetch fails, and likewise when
the repository-labels request fails, the consistency step records a
critical result and returns `False` — refuting "every result it records on
failure has status warning". -/
theorem document_label_consistency_counterexample :
    ((Full.verify_document_label_consistency
        ⟨some (str "t"), some (str "o"), str "ts", HttpOutcome.exc, HttpOutcome.exc,
         HttpOutcome.exc, HttpOutcome.exc, HttpOutcome.exc, HttpOutcome.exc, HttpOutcome.exc,
         HttpOutcome.exc⟩
        ⟨[], false⟩).1.results.map (fun r => r.status)) = [str "critical"]
    ∧ (Full.verify_document_label_consistency
        ⟨some (str "t"), some (str "o"), str "ts", HttpOutcome.exc, HttpOutcome.exc,
         HttpOutcome.exc, HttpOutcome.exc, HttpOutcome.exc, HttpOutcome.exc, HttpOutcome.exc,
         HttpOutcome.exc⟩
        ⟨[], false⟩).2 = false
    ∧ ((Full.verify_document_label_consistency
        ⟨some (str "t"), some (str "o"), str "ts", HttpOutcome.exc, HttpOutcome.exc,
         HttpOutcome.exc, HttpOutcome.exc, HttpOutcome.exc, HttpOutcome.exc,
         HttpOutcome.resp 200 ⟨[]⟩, HttpOutcome.exc⟩
        ⟨[], false⟩).1.results.map (fun r => r.status)) = [str "critical"]
    ∧ (Full.verify_document_label_consistency
        ⟨some (str "t"), some (str "o"), str "ts", HttpOutcome.exc, HttpOutcome.exc,
         HttpOutcome.exc, HttpOutcome.exc, HttpOutcome.exc, HttpOutcome.exc,
         HttpOutcome.resp 200 ⟨[]⟩, HttpOutcome.exc⟩
        ⟨[], false⟩).2 = false := by decide

/-- C3 (amended): when both of its API requests succeed, the consistency
step records a success result exactly when the set of names parsed from the
document equals the repository's label-name set, and on a set mismatch it
records only warnings; an API failure instead records a critical result. -/
theorem document_label_consistency_amended :
    (∀ (w : Full.FullWorld) (st : FullVState) (resp : Full.ContentsResp)
      (repo : List Full.RepoLabel),
      Full.github_api_request w.contents2 = (true, some resp) →
      Full.github_api_request w.repoLabels = (true, some repo) →
      ((∃ e ∈ appendedF st (Full.verify_document_label_consistency w st).1,
            e.status = str "success") ↔
          (∀ n : Str, n ∈ repo.map (fun l => l.name) ↔ n ∈ Full.docLabelNames resp.decoded))
      ∧ (¬(∀ n : Str, n ∈ repo.map (fun l => l.name) ↔ n ∈ Full.docLabelNames resp.decoded) →
          ∀ e ∈ appendedF st (Full.verify_document_label_consistency w st).1,
            e.status = str "warning"))
    ∧ (∀ (w : Full.FullWorld) (st : FullVState),
        (Full.github_api_request w.contents2).1 = false →
        Full.verify_document_label_consistency w st
          = (Full.record_result st (str "一致性验证") (str "无法获取标签文档")
              (str "critical") w.now, false))
    ∧ (∀ (w : Full.FullWorld) (st : FullVState) (resp : Full.ContentsResp),
        Full.github_api_request w.contents2 = (true, some resp) →
        (Full.github_api_request w.repoLabels).1 = false →
        Full.verify_document_label_consistency w st
          = (Full.record_result st (str "一致性验证") (str "无法获取仓库标签")
              (str "critical") w.now, false)) := by
  refine ⟨fun w st resp repo h1 h2 => ?_, fun w st h => ?_, fun w st resp h1 h2 => ?_⟩
  case refine_2 =>
    unfold Full.verify_document_label_consistency
    rcases hr : Full.github_api_request w.contents2 with ⟨b, ob⟩
    cases b
    · rfl
    · exfalso
      simp [hr] at h
  case refine_3 =>
    unfold Full.verify_document_label_consistency
    rw [h1]
    dsimp only
    rcases hr : Full.github_api_request w.repoLabels with ⟨b, ob⟩
    cases b
    · rfl
    · exfalso
      simp [hr] at h2
  by_cases hm : (repo.map (fun l => l.name)).filter
      (fun n => !((Full.docLabelNames resp.decoded).contains n)) = []
  · by_cases he : (Full.docLabelNames resp.decoded).filter
        (fun n => !((repo.map (fun l => l.name)).contains n)) = []
    · have hval : (Full.verify_document_label_consistency w st).1
          = Full.record_result st (str "一致性验证") (str "文档与实际标签完全一致")
              (str "success") w.now := by
        unfold Full.verify_document_label_consistency
        rw [h1]
        dsimp only
        rw [h2]
        dsimp only
        rw [show ((repo.map (fun l => l.name)).filter
              (fun n => !((Full.docLabelNames resp.decoded).contains n)) != []) = false
            from by rw [hm]; rfl,
          show ((Full.docLabelNames resp.decoded).filter
              (fun n => !((repo.map (fun l => l.name)).contains n)) != []) = false
            from by rw [he]; rfl,
          show ((repo.map (fun l => l.name)).filter
                (fun n => !((Full.docLabelNames resp.decoded).contains n)) == []
              && ((Full.docLabelNames resp.decoded).filter
                (fun n => !((repo.map (fun l => l.name)).contains n)) == [])) = true
            from by rw [hm, he]; rfl]
        simp
      have hsets : ∀ n : Str, n ∈ repo.map (fun l => l.name) ↔
          n ∈ Full.docLabelNames resp.decoded := by
        intro n
        constructor
        · intro hn
          have hx := List.filter_eq_nil_iff.mp hm n hn
          simpa using hx
        · intro hn
          have hx := List.filter_eq_nil_iff.mp he n hn
          simpa using hx
      refine ⟨⟨fun _ => hsets, fun _ => ?_⟩, fun hR => (hR hsets).elim⟩
      rw [hval, appendedF_one]
      exact ⟨_, List.mem_singleton_self _, rfl⟩
    · have hval : (Full.verify_document_label_consistency w st).1
          = Full.record_result st (str "一致性验证")
              (str "文档包含 " ++ natStr ((Full.docLabelNames resp.decoded).filter
                  (fun n => !((repo.map (fun l => l.name)).contains n))).dedup.length
                ++ str " 个多余标签")
              (str "warning") w.now := by
        unfold Full.verify_document_label_consistency
        rw [h1]
        dsimp only
        rw [h2]
        dsimp only
        rw [show ((repo.map (fun l => l.name)).filter
              (fun n => !((Full.docLabelNames resp.decoded).contains n)) != []) = false
            from by rw [hm]; rfl,
          show ((Full.docLabelNames resp.decoded).filter
              (fun n => !((repo.map (fun l => l.name)).contains n)) != []) = true
            from by simpa using he,
          show ((repo.map (fun l => l.name)).filter
                (fun n => !((Full.docLabelNames resp.decoded).contains n)) == []
              && ((Full.docLabelNames resp.decoded).filter
                (fun n => !((repo.map (fun l => l.name)).contains n)) == [])) = false
            from by rw [hm]; simpa using he]
        simp
      have hnotsets : ¬(∀ n : Str, n ∈ repo.map (fun l => l.name) ↔
          n ∈ Full.docLabelNames resp.decoded) := by
        obtain ⟨n, hn⟩ := List.exists_mem_of_ne_nil _ he
        obtain ⟨hmem, hp⟩ := List.mem_filter.mp hn
        intro hR
        have : ¬(n ∈ repo.map (fun l => l.name)) := by simpa using hp
        exact this ((hR n).mpr hmem)
      refine ⟨⟨?_, fun hR => (hnotsets hR).elim⟩, fun _ e hme => ?_⟩
      · rintro ⟨e, hme, hst⟩
        rw [hval, appendedF_one] at hme
        rw [List.mem_singleton.mp hme] at hst
        exact absurd hst (show ¬((str "warning" : Str) = str "success") from by decide)
      · rw [hval, appendedF_one] at hme
        rw [List.mem_singleton.mp hme]
  · by_cases he : (Full.docLabelNames resp.decoded).filter
        (fun n => !((repo.map (fun l => l.name)).contains n)) = []
    · have hval : (Full.verify_document_label_consistency w st).1
          = Full.record_result st (str "一致性验证")
              (str "文档缺少 " ++ natStr ((repo.map (fun l => l.name)).filter
                  (fun n => !((Full.docLabelNames resp.decoded).contains n))).dedup.length
                ++ str " 个实际标签")
              (str "warning") w.now := by
        unfold Full.verify_document_label_consistency
        rw [h1]
        dsimp only
        rw [h2]
        dsimp only
        rw [show ((repo.map (fun l => l.name)).filter
              (fun n => !((Full.docLabelNames resp.decoded).contains n)) != []) = true
            from by simpa using hm,
          show ((Full.docLabelNames resp.decoded).filter
              (fun n => !((repo.map (fun l => l.name)).contains n)) != []) = false
            from by rw [he]; rfl,
          show ((repo.map (fun l => l.name)).filter
                (fun n => !((Full.docLabelNames resp.decoded).contains n)) == []
              && ((Full.docLabelNames resp.decoded).filter
                (fun n => !((repo.map (fun l => l.name)).contains n)) == [])) = false
            from by
              have hmx : ((repo.map (fun l => l.name)).filter
                  (fun n => !((Full.docLabelNames resp.decoded).contains n)) == []) = false := by
                simpa using hm
              rw [hmx]; rfl]
        simp
      have hnotsets : ¬(∀ n : Str, n ∈ repo.map (fun l => l.name) ↔
          n ∈ Full.docLabelNames resp.decoded) := by
        obtain ⟨n, hn⟩ := List.exists_mem_of_ne_nil _ hm
        obtain ⟨hmem, hp⟩ := List.mem_filter.mp hn
        intro hR
        have : ¬(n ∈ Full.docLabelNames resp.decoded) := by simpa using hp
        exact this ((hR n).mp hmem)
      refine ⟨⟨?_, fun hR => (hnotsets hR).elim⟩, fun _ e hme => ?_⟩
      · rintro ⟨e, hme, hst⟩
        rw [hval, appendedF_one] at hme
        rw [List.mem_singleton.mp hme] at hst
        exact absurd hst (show ¬((str "warning" : Str) = str "success") from by decide)
      · rw [hval, appendedF_one] at hme
        rw [List.mem_singleton.mp hme]
    · have hval : (Full.verify_document_label_consistency w st).1
          = Full.record_result
              (Full.record_result st (str "一致性验证")
                (str "文档缺少 " ++ natStr ((repo.map (fun l => l.name)).filter
                    (fun n => !((Full.docLabelNames resp.decoded).contains n))).dedup.length
                  ++ str " 个实际标签")
                (str "warning") w.now)
              (str "一致性验证")
              (str "文档包含 " ++ natStr ((Full.docLabelNames resp.decoded).filter
                  (fun n => !((repo.map (fun l => l.name)).contains n))).dedup.length
                ++ str " 个多余标签")
              (str "warning") w.now := by
        unfold Full.verify_document_label_consistency
        rw [h1]
        dsimp only
        rw [h2]
        dsimp only
        rw [show ((repo.map (fun l => l.name)).filter
              (fun n => !((Full.docLabelNames resp.decoded).contains n)) != []) = true
            from by simpa using hm,
          show ((Full.docLabelNames resp.decoded).filter
              (fun n => !((repo.map (fun l => l.name)).contains n)) != []) = true
            from by simpa using he,
          show ((repo.map (fun l => l.name)).filter
                (fun n => !((Full.docLabelNames resp.decoded).contains n)) == []
              && ((Full.docLabelNames resp.decoded).filter
                (fun n => !((repo.map (fun l => l.name)).contains n)) == [])) = false
            from by
              have hmx : ((repo.map (fun l => l.name)).filter
                  (fun n => !((Full.docLabelNames resp.decoded).contains n)) == []) = false := by
                simpa using hm
              rw [hmx]; rfl]
        simp
      have hnotsets : ¬(∀ n : Str, n ∈ repo.map (fun l => l.name) ↔
          n ∈ Full.docLabelNames resp.decoded) := by
        obtain ⟨n, hn⟩ := List.exists_mem_of_ne_nil _ hm
        obtain ⟨hmem, hp⟩ := List.mem_filter.mp hn
        intro hR
        have : ¬(n ∈ Full.docLabelNames resp.decoded) := by simpa using hp
        exact this ((hR n).mp hmem)
      refine ⟨⟨?_, fun hR => (hnotsets hR).elim⟩, fun _ e hme => ?_⟩
      · rintro ⟨e, hme, hst⟩
        rw [hval, appendedF_two] at hme
        rcases List.mem_cons.mp hme with rfl | hme2
        · exact absurd hst (show ¬((str "warning" : Str) = str "success") from by decide)
        · rw [List.mem_singleton.mp hme2] at hst
          exact absurd hst (show ¬((str "warning" : Str) = str "success") from by decide)
      · rw [hval, appendedF_two] at hme
        rcases List.mem_cons.mp hme with rfl | hme2
        · rfl
        · rw [List.mem_singleton.mp hme2]

/-- C3 witness: with an empty document (no header, hence no parsed names)
and an empty repository label list, the two API calls succeed, the sets are
both empty, and a success result is recorded. -/
theorem document_label_consistency_amended_witness :
    ∃ e ∈ appendedF ⟨[], false⟩
        (Full.verify_document_label_consistency
          ⟨some (str "t"), some (str "o"), str "ts", HttpOutcome.exc, HttpOutcome.exc,
           HttpOutcome.exc, HttpOutcome.exc, HttpOutcome.exc, HttpOutcome.exc,
           HttpOutcome.resp 200 ⟨[]⟩, HttpOutcome.resp 200 []⟩
          ⟨[], false⟩).1,
      e.status = str "success" :=
  (document_label_consistency_amended.1
      ⟨some (str "t"), some (str "o"), str "ts", HttpOutcome.exc, HttpOutcome.exc,
       HttpOutcome.exc, HttpOutcome.exc, HttpOutcome.exc, HttpOutcome.exc,
       HttpOutcome.resp 200 ⟨[]⟩, HttpOutcome.resp 200 []⟩
      ⟨[], false⟩ ⟨[]⟩ [] rfl rfl).1.mpr
    (by intro n; simp [show Full.docLabelNames [] = [] from by decide])
